import Mathlib

/-!
Verification of the `frame_artmode_sync` reconciliation control core.

This file shallowly embeds the parts of the repository that the claims
concern:

* `decision.py` — the pure decision engine (`compute_desired_mode`,
  `is_time_in_window`);
* `atv_client.py` — the activity monitor (grace period on disconnect,
  debounced state commits, push-listener updates);
* `frame_client.py` — the display command executor (verification loop and
  the `force_art_on` / `force_art_off` fallback ladders);
* `pair_controller.py` — the pair controller (enforcement pipeline,
  cooldown, rate limiter / circuit breaker, drift correction / override).

Times are modelled as natural numbers: wall-clock instants as seconds since
an arbitrary epoch and times-of-day as seconds since midnight (Python
`datetime` / `time` comparisons are order-isomorphic to these).  Python
string constants from `const.py` (which holds only enumerated tags) are
modelled as inductive enumerations; their exact string values are never
load-bearing, only their distinctness.  Device and platform I/O is modelled
as oracles: indexed functions giving the result of the i-th call of each
primitive, with a call-counter record threaded through the definitions.
-/

namespace FrameArtSync

/-! ## Enumerations (string constants of `const.py`)

`const.py` is not part of the source tree; only its importers are.  The
constants below are tag strings compared with `==` in the code, so each
family is modelled as an inductive type.  The `otherTag` constructors stand
for any string that matches none of the named constants (the Python code
falls through to a default branch on those). -/

/-- `MODE_OFF`, `MODE_ART`, `MODE_ATV` — the desired display mode returned
by `compute_desired_mode`. -/
inductive Mode where
  | off
  | art
  | atv
deriving DecidableEq, Fintype, Repr

/-- `NIGHT_BEHAVIOR_DO_NOTHING`, `NIGHT_BEHAVIOR_FORCE_OFF`,
`NIGHT_BEHAVIOR_FORCE_ART`; `otherTag` is any other string (the code's
final `else` default). -/
inductive NightBehavior where
  | doNothing
  | forceOff
  | forceArt
  | otherTag
deriving DecidableEq, Fintype, Repr

/-- `PRESENCE_MODE_ENTITY`, `PRESENCE_MODE_DISABLED`; any other string
behaves like `disabled` (the code only tests equality with the entity
tag). -/
inductive PresenceMode where
  | entity
  | disabled
  | otherTag
deriving DecidableEq, Fintype, Repr

/-- `AWAY_POLICY_TURN_TV_OFF`, `AWAY_POLICY_KEEP_ART_ON`,
`AWAY_POLICY_DISABLED`; any other string falls through like `disabled`. -/
inductive AwayPolicy where
  | turnTvOff
  | keepArtOn
  | disabled
  | otherTag
deriving DecidableEq, Fintype, Repr

/-- `UNKNOWN_BEHAVIOR_TREAT_AS_AWAY`, `UNKNOWN_BEHAVIOR_TREAT_AS_HOME`,
`UNKNOWN_BEHAVIOR_IGNORE`; any other string falls through like `ignore`. -/
inductive UnknownBehavior where
  | treatAsAway
  | treatAsHome
  | ignore
  | otherTag
deriving DecidableEq, Fintype, Repr

/-! ## Decision engine (`decision.py`) -/

/-- `decision.is_time_in_window`: times-of-day are seconds since midnight
(Python `datetime.time` comparison is lexicographic on (h, m, s), which is
exactly the order on total seconds for valid fields).

```python
if start_time <= end_time:
    return start_time <= now_time <= end_time
else:
    return now_time >= start_time or now_time <= end_time
``` -/
def is_time_in_window (now start_time end_time : Nat) : Bool :=
  if start_time ≤ end_time then
    decide (start_time ≤ now ∧ now ≤ end_time)
  else
    decide (now ≥ start_time ∨ now ≤ end_time)

/-- Seconds since midnight for an `HH:MM:SS` time of day. -/
def timeOfDay (h m s : Nat) : Nat := h * 3600 + m * 60 + s

/-- `decision.compute_desired_mode`, ported branch for branch.  `home_ok`
is the Python `bool | None` tri-state as `Option Bool`. -/
def compute_desired_mode (atv_active in_active_hours : Bool)
    (night_behavior : NightBehavior) (presence_mode : PresenceMode)
    (home_ok : Option Bool) (away_policy : AwayPolicy)
    (unknown_behavior : UnknownBehavior) : Mode :=
  -- Handle presence/away logic first
  let fromPresence : Option Mode :=
    if presence_mode = PresenceMode.entity then
      if home_ok = some false then
        -- User is away
        if away_policy = AwayPolicy.turnTvOff then some Mode.off
        else if away_policy = AwayPolicy.keepArtOn then some Mode.art
        else none  -- disabled (or other): fall through to normal logic
      else if home_ok = none then
        -- Unknown state
        if unknown_behavior = UnknownBehavior.treatAsAway then
          if away_policy = AwayPolicy.turnTvOff then some Mode.off
          else if away_policy = AwayPolicy.keepArtOn then some Mode.art
          else none
        else none  -- treat_as_home / ignore / other: fall through
      else none
    else none
  match fromPresence with
  | some m => m
  | none =>
    -- Normal active hours logic
    if in_active_hours then
      if atv_active then Mode.atv else Mode.art
    else
      -- Outside active hours
      if night_behavior = NightBehavior.doNothing then
        -- computed but the caller should not enforce this
        if atv_active then Mode.atv else Mode.art
      else if night_behavior = NightBehavior.forceOff then Mode.off
      else if night_behavior = NightBehavior.forceArt then Mode.art
      else Mode.art  -- default to ART

/-! ## Activity monitor (`atv_client.py`)

The `ATVClient` state machine: connection flag (`self.atv is not None`),
grace window, current debounced value, in-flight debounce timer and the
list of committed values (each commit also invokes the subscriber
callback, so `commits` records the notifications in order). -/

/-- `pyatv.const.PowerState`. -/
inductive PowerState where
  | on
  | off
  | unknown
deriving DecidableEq, Repr

/-- `pyatv.const.DeviceState` (the constructors the client inspects). -/
inductive DeviceState where
  | playing
  | paused
  | loading
  | seeking
  | idle
  | otherTag
deriving DecidableEq, Repr

/-- `ATV_ACTIVE_MODE_POWER_ON`, `ATV_ACTIVE_MODE_PLAYING_ONLY`,
`ATV_ACTIVE_MODE_PLAYING_OR_PAUSED`; any other string hits the code's
final default, which is the playing-or-paused branch. -/
inductive ActiveMode where
  | powerOn
  | playingOnly
  | playingOrPaused
deriving DecidableEq, Repr

/-- `ATVClient._playback_state_from_playing`: `None` playing info means
"idle"; Loading/Seeking count as "playing". -/
def playbackStateFromPlaying : Option DeviceState → String
  | none => "idle"
  | some DeviceState.playing => "playing"
  | some DeviceState.paused => "paused"
  | some DeviceState.loading => "playing"
  | some DeviceState.seeking => "playing"
  | some _ => "idle"

/-- Mutable fields of `ATVClient` that the claims concern.  `pending` is
the in-flight `_debounce_task`: its fire time (`schedule time +
debounce_seconds`) and the `(active, playback_state)` value it will
commit.  `commits` is the list of values committed by `_debounced_set`
(each entry is also one `state_callback` notification). -/
structure ATVState where
  connected : Bool
  graceUntil : Option Nat
  currentState : Bool
  playbackState : String
  powerState : PowerState
  pending : Option (Nat × Bool × String)
  commits : List (Bool × String)
deriving DecidableEq, Repr

/-- The Python truthiness test `self._grace_until and now < self._grace_until`. -/
def graceActive (g : Option Nat) (now : Nat) : Bool :=
  match g with
  | some t => decide (now < t)
  | none => false

/-- `ATVClient._compute_active`: the grace window holds the last state;
otherwise the active-mode policy applies. -/
def computeActive (mode : ActiveMode) (now : Nat) (s : ATVState) : Bool :=
  if graceActive s.graceUntil now then s.currentState  -- hold last state
  else
    match mode with
    | ActiveMode.powerOn => decide (s.powerState = PowerState.on)
    | ActiveMode.playingOnly => decide (s.playbackState = "playing")
    | ActiveMode.playingOrPaused =>
        decide (s.playbackState = "playing" ∨ s.playbackState = "paused")

/-- `ATVClient._set_state`: early-return when disconnected with no grace
field set; otherwise cancel any in-flight debounce task and start a new
one that will fire `debounceSeconds` later with this value. -/
def setState (debounceSeconds now : Nat) (active : Bool) (playback : String)
    (s : ATVState) : ATVState :=
  if ¬ s.connected ∧ s.graceUntil = none then s
  else { s with pending := some (now + debounceSeconds, active, playback) }

/-- The body of `_debounced_set` after its sleep elapses uncancelled: a
no-op before the fire time; at or after it, drop the task, and unless
disconnected-with-no-grace-field, commit the value and notify the
subscriber. -/
def fireDebounce (now : Nat) (s : ATVState) : ATVState :=
  match s.pending with
  | none => s
  | some (ft, a, p) =>
    if now < ft then s
    else
      let s1 : ATVState := { s with pending := none }
      if ¬ s1.connected ∧ s1.graceUntil = none then s1
      else { s1 with currentState := a, playbackState := p,
                     commits := s1.commits ++ [(a, p)] }

/-- `ATVClient._handle_disconnect`: cancel the debounce task and listener
tasks, stop the push updater, close and drop the connection, reset power
and playback to unknown; then either open a grace window (prior
`active=true` and `grace_seconds>0`) or clear it and call
`_set_state(False, "disconnected")`. -/
def handleDisconnect (debounceSeconds graceSeconds now : Nat)
    (s : ATVState) : ATVState :=
  let s1 : ATVState := { s with pending := none, connected := false,
                                powerState := PowerState.unknown,
                                playbackState := "unknown" }
  if s1.currentState ∧ graceSeconds > 0 then
    { s1 with graceUntil := some (now + graceSeconds) }
  else
    setState debounceSeconds now false "disconnected"
      { s1 with graceUntil := none }

/-- `ATVPushListener.playstatus_update`: ignored when the client is
disconnected; otherwise the new playback state is derived from the push
payload, `active` is computed from the NEW playback state (grace window
first), and `_set_state` is scheduled. -/
def playstatusUpdate (mode : ActiveMode) (debounceSeconds now : Nat)
    (ps : Option DeviceState) (s : ATVState) : ATVState :=
  if ¬ s.connected then s
  else
    let pb := playbackStateFromPlaying ps
    let active :=
      if graceActive s.graceUntil now then s.currentState
      else
        match mode with
        | ActiveMode.powerOn => decide (s.powerState = PowerState.on)
        | ActiveMode.playingOnly => decide (pb = "playing")
        | ActiveMode.playingOrPaused => decide (pb = "playing" ∨ pb = "paused")
    setState debounceSeconds now active pb s

/-- `ATVPushListener.powerstate_update`: ignored when disconnected;
otherwise store the new power state, recompute `active` via
`_compute_active`, and schedule `_set_state`. -/
def powerstateUpdate (mode : ActiveMode) (debounceSeconds now : Nat)
    (p : PowerState) (s : ATVState) : ATVState :=
  if ¬ s.connected then s
  else
    let s1 : ATVState := { s with powerState := p }
    setState debounceSeconds now (computeActive mode now s1) s1.playbackState s1

/-- The tail of `ATVClient._update_state` (the poll path run after a
(re)connect): update the power and playback fields from the device reads
(`none` models an interface that is unavailable), recompute `active`, and
only when it differs from the current value schedule `_set_state`. -/
def pollUpdate (mode : ActiveMode) (debounceSeconds now : Nat)
    (ps : Option DeviceState) (p : Option PowerState) (s : ATVState) : ATVState :=
  if ¬ s.connected then s
  else
    let s1 : ATVState :=
      match p with
      | some pw => { s with powerState := pw }
      | none => s
    let s2 : ATVState :=
      match ps with
      | some d => { s1 with playbackState := playbackStateFromPlaying (some d) }
      | none => s1
    let active := computeActive mode now s2
    if active ≠ s2.currentState then
      setState debounceSeconds now active s2.playbackState s2
    else s2

/-- Events delivered to the activity monitor: push playback updates, push
power updates, a poll refresh, the debounce timer elapsing, and the
connection flag changing (a connect completing or the connection object
being dropped). -/
inductive ATVEvent where
  | play (now : Nat) (ps : Option DeviceState)
  | power (now : Nat) (p : PowerState)
  | poll (now : Nat) (ps : Option DeviceState) (p : Option PowerState)
  | fire (now : Nat)
  | setConn (b : Bool)
deriving DecidableEq, Repr

/-- One event step of the activity monitor. -/
def atvStep (mode : ActiveMode) (debounceSeconds : Nat) (s : ATVState) :
    ATVEvent → ATVState
  | ATVEvent.play now ps => playstatusUpdate mode debounceSeconds now ps s
  | ATVEvent.power now p => powerstateUpdate mode debounceSeconds now p s
  | ATVEvent.poll now ps p => pollUpdate mode debounceSeconds now ps p s
  | ATVEvent.fire now => fireDebounce now s
  | ATVEvent.setConn b => { s with connected := b }

/-- A run of the activity monitor over an event sequence. -/
def atvRun (mode : ActiveMode) (debounceSeconds : Nat) (s : ATVState)
    (es : List ATVEvent) : ATVState :=
  es.foldl (atvStep mode debounceSeconds) s

/-- The event happens strictly before instant `g` (connection-flag changes
carry no timestamp). -/
def eventBefore (g : Nat) : ATVEvent → Bool
  | ATVEvent.play now _ => decide (now < g)
  | ATVEvent.power now _ => decide (now < g)
  | ATVEvent.poll now _ _ => decide (now < g)
  | ATVEvent.fire now => decide (now < g)
  | ATVEvent.setConn _ => true

/-! ## Display command executor (`frame_client.py`)

Transport-level behaviour is an oracle: indexed functions giving the
result of the i-th call of each primitive (`async_set_artmode`,
`async_power_toggle`, `async_get_artmode`, `async_set_source`, the
remote-wake service call, the WOL send and the reachability probe), with a
call-counter record threaded through.  `verifyTimeUp k` is the outcome of
the verification loop's wall-time check before attempt `k` (the code
derives it from the monotonic clock and the `VERIFY_TIMEOUT_TOTAL`
budget).  Commands actually dispatched towards the devices are collected
in `Cmd` lists; state reads are not commands. -/

/-- `INPUT_MODE_HDMI1` .. `INPUT_MODE_HDMI3`, `INPUT_MODE_NONE`; any other
string is matched by neither branch of `_switch_to_atv_input` /
`async_set_source`. -/
inductive InputMode where
  | hdmi1
  | hdmi2
  | hdmi3
  | noInput
  | otherTag
deriving DecidableEq, Repr

/-- A command dispatched to a device (state reads excluded). -/
inductive Cmd where
  | setArt (turnOn : Bool)
  | powerToggle
  | setSource (src : InputMode)
  | remoteWake
  | wol
deriving DecidableEq, Repr

/-- The device/transport oracle. -/
structure Device where
  setArt : Nat → Bool → Bool
  powerToggle : Nat → Bool
  getArt : Nat → Option Bool
  setSource : Nat → Bool
  remoteCall : Nat → Bool
  wolSend : Nat → Bool
  reachProbe : Nat → Bool
  verifyTimeUp : Nat → Bool

/-- Per-primitive call counters. -/
structure Calls where
  getCount : Nat
  setCount : Nat
  toggleCount : Nat
  sourceCount : Nat
  remoteCount : Nat
  wolCount : Nat
  probeCount : Nat
deriving DecidableEq, Repr

/-- Fresh call counters. -/
def Calls.init : Calls :=
  { getCount := 0, setCount := 0, toggleCount := 0, sourceCount := 0,
    remoteCount := 0, wolCount := 0, probeCount := 0 }

/-- `FrameClient.async_set_artmode`: one transport send, result from the
oracle. -/
def devSetArtmode (dev : Device) (turnOn : Bool) (c : Calls) :
    Bool × Calls × List Cmd :=
  (dev.setArt c.setCount turnOn, { c with setCount := c.setCount + 1 },
   [Cmd.setArt turnOn])

/-- `FrameClient.async_power_toggle`. -/
def devPowerToggle (dev : Device) (c : Calls) : Bool × Calls × List Cmd :=
  (dev.powerToggle c.toggleCount, { c with toggleCount := c.toggleCount + 1 },
   [Cmd.powerToggle])

/-- `FrameClient.async_get_artmode`: a state read (not a command). -/
def devGetArtmode (dev : Device) (c : Calls) : Option Bool × Calls :=
  (dev.getArt c.getCount, { c with getCount := c.getCount + 1 })

/-- `FrameClient.async_set_source`: only the three HDMI tags are in the
key map; anything else returns `False` without sending. -/
def devSetSource (dev : Device) (src : InputMode) (c : Calls) :
    Bool × Calls × List Cmd :=
  match src with
  | InputMode.hdmi1 =>
      (dev.setSource c.sourceCount, { c with sourceCount := c.sourceCount + 1 },
       [Cmd.setSource src])
  | InputMode.hdmi2 =>
      (dev.setSource c.sourceCount, { c with sourceCount := c.sourceCount + 1 },
       [Cmd.setSource src])
  | InputMode.hdmi3 =>
      (dev.setSource c.sourceCount, { c with sourceCount := c.sourceCount + 1 },
       [Cmd.setSource src])
  | _ => (false, c, [])

/-- The body of `FrameClient.async_verify_artmode`: up to `fuel` further
attempts (`max_attempts = 10`); before each attempt the elapsed-time
budget is checked; a read equal to `expected` succeeds (Python
`state == expected` is false whenever `state` is `None`). -/
def verifyLoop (dev : Device) (expected : Bool) (fuel attempt : Nat)
    (c : Calls) : Bool × Calls :=
  match fuel with
  | 0 => (false, c)
  | Nat.succ f =>
    if dev.verifyTimeUp attempt then (false, c)
    else
      let r := devGetArtmode dev c
      if r.1 = some expected then (true, r.2)
      else verifyLoop dev expected f (attempt + 1) r.2

/-- `FrameClient.async_verify_artmode` with `max_attempts = 10`. -/
def verifyArtmode (dev : Device) (expected : Bool) (c : Calls) :
    Bool × Calls :=
  verifyLoop dev expected 10 0 c

/-- Strategy 3 of `FrameClient.async_force_art_on`: power-toggle twice (to
force a known power state), then set + verify; each toggle is attempted
regardless of the previous result. -/
def forceArtOnStep3 (dev : Device) (c : Calls) (acc : List Cmd) :
    (Bool × String) × Calls × List Cmd :=
  let r1 := devPowerToggle dev c
  let r2 := devPowerToggle dev r1.2.1
  let r3 := devSetArtmode dev true r2.2.1
  let acc3 := acc ++ r1.2.2 ++ r2.2.2 ++ r3.2.2
  if r3.1 then
    let v := verifyArtmode dev true r3.2.1
    if v.1 then ((true, "power_twice_set_art_on"), v.2, acc3)
    else ((false, "all_strategies_failed"), v.2, acc3)
  else ((false, "all_strategies_failed"), r3.2.1, acc3)

/-- Strategy 2 of `FrameClient.async_force_art_on`: power-toggle, wait,
set + verify; on any failure fall through to strategy 3. -/
def forceArtOnStep2 (dev : Device) (c : Calls) (acc : List Cmd) :
    (Bool × String) × Calls × List Cmd :=
  let r1 := devPowerToggle dev c
  if r1.1 then
    let r2 := devSetArtmode dev true r1.2.1
    if r2.1 then
      let v := verifyArtmode dev true r2.2.1
      if v.1 then ((true, "power_toggle_set_art_on"), v.2, acc ++ r1.2.2 ++ r2.2.2)
      else forceArtOnStep3 dev v.2 (acc ++ r1.2.2 ++ r2.2.2)
    else forceArtOnStep3 dev r2.2.1 (acc ++ r1.2.2 ++ r2.2.2)
  else forceArtOnStep3 dev r1.2.1 (acc ++ r1.2.2)

/-- `FrameClient.async_force_art_on`: direct set + verify, then the
power-toggle fallbacks. -/
def forceArtOn (dev : Device) (c : Calls) :
    (Bool × String) × Calls × List Cmd :=
  let r1 := devSetArtmode dev true c
  if r1.1 then
    let v := verifyArtmode dev true r1.2.1
    if v.1 then ((true, "set_art_on"), v.2, r1.2.2)
    else forceArtOnStep2 dev v.2 r1.2.2
  else forceArtOnStep2 dev r1.2.1 r1.2.2

/-- Strategy 2 of `FrameClient.async_force_art_off`: power-toggle, wait,
verify off. -/
def forceArtOffStep2 (dev : Device) (c : Calls) (acc : List Cmd) :
    (Bool × String) × Calls × List Cmd :=
  let r1 := devPowerToggle dev c
  if r1.1 then
    let v := verifyArtmode dev false r1.2.1
    if v.1 then ((true, "power_toggle_set_art_off"), v.2, acc ++ r1.2.2)
    else ((false, "failed"), v.2, acc ++ r1.2.2)
  else ((false, "failed"), r1.2.1, acc ++ r1.2.2)

/-- `FrameClient.async_force_art_off`: direct set + verify, then the
power-toggle fallback. -/
def forceArtOff (dev : Device) (c : Calls) :
    (Bool × String) × Calls × List Cmd :=
  let r1 := devSetArtmode dev false c
  if r1.1 then
    let v := verifyArtmode dev false r1.2.1
    if v.1 then ((true, "set_art_off"), v.2, r1.2.2)
    else forceArtOffStep2 dev v.2 r1.2.2
  else forceArtOffStep2 dev r1.2.1 r1.2.2

/-! ## Pair controller (`pair_controller.py`)

Wall-clock instants (`nowUtc`, from `dt_util.utcnow()`) and monotonic
instants (`nowMono`, from `loop.time()`) are separate natural-number
parameters, matching the dual bookkeeping in the source.
`normalize_datetime` of `entity_helpers.py` is the identity on the
timezone-aware datetimes the controller stores, so it does not appear.
`_check_tv_reachable` (entity state / TCP / websocket probing) is
abstracted as the `reachProbe` oracle; `_get_tv_state` is the external
`tvState` parameter. -/

/-- `PHASE_*` constants. -/
inductive Phase where
  | idle
  | switchingToAtv
  | returningToArt
  | manualOverride
  | degraded
  | breakerOpen
  | dryRun
deriving DecidableEq, Repr

/-- `HEALTH_OK`, `HEALTH_DEGRADED`, `HEALTH_BREAKER_OPEN`. -/
inductive Health where
  | ok
  | degraded
  | breakerOpen
deriving DecidableEq, Repr

/-- `EVENT_TYPE_*` trigger tags stored in `self._last_trigger`. -/
inductive Trigger where
  | startup
  | atvOn
  | atvOff
  | manual
  | presenceChange
  | timeWindowChange
  | resync
deriving DecidableEq, Repr

/-- The controller configuration entries the claims touch, as read from
`self.config.get(...)` (with the `DEFAULT_*` fallbacks of the absent
`const.py` folded into whatever value a field holds).  `BACKOFF_INITIAL`,
`BACKOFF_MULTIPLIER` and `BACKOFF_MAX` are module constants from
`const.py`, carried here as fields since their values are not in the
source tree. -/
structure PCConfig where
  enabled : Bool
  dryRun : Bool
  activeStart : Nat
  activeEnd : Nat
  nightBehavior : NightBehavior
  presenceMode : PresenceMode
  awayPolicy : AwayPolicy
  unknownBehavior : UnknownBehavior
  inputMode : InputMode
  cooldownSeconds : Nat
  maxCommandsPer5Min : Nat
  overrideMinutes : Nat
  maxDriftCorrectionsPerHour : Nat
  driftCorrectionCooldownMinutes : Nat
  returnDelaySeconds : Nat
  backoffInitial : Nat
  backoffMultiplier : Nat
  backoffMax : Nat
  enableRemoteWake : Bool
  hasWakeRemoteEntity : Bool
  enableWolFallback : Bool
  hasFrameMac : Bool
  remoteWakeRetries : Nat
  wolRetries : Nat
  wakeStartupGrace : Nat
deriving DecidableEq, Repr

/-- Mutable `PairController` fields the claims touch.  `lastActionResult`
is `True` for `ACTION_RESULT_SUCCESS`, `False` for `ACTION_RESULT_FAIL`;
`lastAction` holds the action tag string. -/
structure PCState where
  atvActive : Bool
  desiredMode : Option Mode
  previousDesiredMode : Option Mode
  actualArtmode : Option Bool
  inActiveHours : Bool
  homeOk : Option Bool
  phase : Phase
  manualOverrideUntil : Option Nat
  manualOverrideUntilMonotonic : Option Nat
  lastTrigger : Trigger
  lastAction : String
  lastActionResult : Bool
  lastActionTs : Option Nat
  lastError : Option String
  pairHealth : Health
  cooldownUntil : Option Nat
  cooldownUntilMonotonic : Option Nat
  commandTimes : List Nat
  breakerOpen : Bool
  breakerOpenUntil : Option Nat
  breakerOpenUntilMonotonic : Option Nat
  connectionBackoffUntil : Option Nat
  connectionBackoffUntilMonotonic : Option Nat
  connectionBackoffDelay : Nat
  lastBackoffLogTime : Option Nat
  lastDegradedLogTime : Option Nat
  driftCorrectionsThisHour : List Nat
  lastDriftCorrection : Option Nat
  lastDriftAt : Option Nat
  consecutiveDrifts : Nat
  commandFailCount : Nat
  connectionFailures : Nat
  returnToArtPending : Option Nat
deriving DecidableEq, Repr

/-- The front-pruning loop used on the command-timestamp and
drift-correction deques: pop leading entries strictly older than `now`
minus `window` seconds (`first_normalized < cutoff`), stop at the first
that is not. -/
def pruneFront (window now : Nat) : List Nat → List Nat
  | [] => []
  | t :: ts => if t + window < now then pruneFront window now ts else t :: ts

/-- `PairController._record_command`.  The timestamp is appended and
entries older than 5 minutes pruned; then, when the count exceeds the
`max_commands_per_5min` threshold, the code evaluates
`self.config.get("breaker_cooldown_minutes", DEFAULT_BREAKER_COOLDOWN_MINUTES)`
(pair_controller.py line 1004).  `DEFAULT_BREAKER_COOLDOWN_MINUTES` is in
no import of `pair_controller.py` and is bound nowhere in that module, so
evaluating the argument raises `NameError` before `self._breaker_open =
True` (line 1005) can run.  The returned flag records that the exception
was raised; the state returned alongside it is the in-place mutation that
has happened up to that point. -/
def recordCommand (cfg : PCConfig) (nowUtc : Nat) (s : PCState) :
    PCState × Bool :=
  let times := pruneFront 300 nowUtc (s.commandTimes ++ [nowUtc])
  let s1 : PCState := { s with commandTimes := times }
  if times.length > cfg.maxCommandsPer5Min then (s1, true)
  else (s1, false)

/-- `PairController._handle_command_failure`: bump failure counters, set
the exponential connection backoff (monotonic + wall-clock copies), grow
the delay up to the cap, and degrade health once. -/
def handleCommandFailure (cfg : PCConfig) (nowUtc nowMono : Nat)
    (s : PCState) : PCState :=
  let backoff := s.connectionBackoffDelay
  let s1 : PCState :=
    { s with commandFailCount := s.commandFailCount + 1,
             connectionFailures := s.connectionFailures + 1,
             connectionBackoffUntilMonotonic := some (nowMono + backoff),
             connectionBackoffUntil := some (nowUtc + backoff),
             connectionBackoffDelay :=
               min (backoff * cfg.backoffMultiplier) cfg.backoffMax }
  if s1.pairHealth = Health.ok then
    { s1 with pairHealth := Health.degraded, phase := Phase.degraded }
  else s1

/-- `PairController._switch_to_atv_input` (best effort): nothing when
input switching is disabled; an input-switch command for the three HDMI
tags; nothing for any other tag. -/
def switchToAtvInput (cfg : PCConfig) (dev : Device) (c : Calls) :
    Calls × List Cmd :=
  if cfg.inputMode = InputMode.noInput then (c, [])
  else
    match cfg.inputMode with
    | InputMode.hdmi1 => let r := devSetSource dev cfg.inputMode c; (r.2.1, r.2.2)
    | InputMode.hdmi2 => let r := devSetSource dev cfg.inputMode c; (r.2.1, r.2.2)
    | InputMode.hdmi3 => let r := devSetSource dev cfg.inputMode c; (r.2.1, r.2.2)
    | _ => (c, [])

/-- One `_check_tv_reachable` probe (entity state / TCP / websocket
internals abstracted into the oracle). -/
def devProbe (dev : Device) (c : Calls) : Bool × Calls :=
  (dev.reachProbe c.probeCount, { c with probeCount := c.probeCount + 1 })

/-- The retry loop of `PairController._attempt_remote_wake`: each attempt
issues the `remote.send_command` service call; the first attempt that
does not time out or raise returns success. -/
def remoteWakeLoop (dev : Device) : Nat → Calls → Bool × Calls × List Cmd
  | 0, c => (false, c, [])
  | Nat.succ f, c =>
    let ok := dev.remoteCall c.remoteCount
    let c1 : Calls := { c with remoteCount := c.remoteCount + 1 }
    if ok then (true, c1, [Cmd.remoteWake])
    else
      let r := remoteWakeLoop dev f c1
      (r.1, r.2.1, Cmd.remoteWake :: r.2.2)

/-- `PairController._attempt_remote_wake`: disabled or unconfigured remote
entity short-circuit to failure before any attempt. -/
def attemptRemoteWake (cfg : PCConfig) (dev : Device) (c : Calls) :
    Bool × Calls × List Cmd :=
  if ¬ cfg.enableRemoteWake then (false, c, [])
  else if ¬ cfg.hasWakeRemoteEntity then (false, c, [])
  else remoteWakeLoop dev cfg.remoteWakeRetries c

/-- The retry loop of `PairController._attempt_wol_fallback`. -/
def wolLoop (dev : Device) : Nat → Calls → Bool × Calls × List Cmd
  | 0, c => (false, c, [])
  | Nat.succ f, c =>
    let ok := dev.wolSend c.wolCount
    let c1 : Calls := { c with wolCount := c.wolCount + 1 }
    if ok then (true, c1, [Cmd.wol])
    else
      let r := wolLoop dev f c1
      (r.1, r.2.1, Cmd.wol :: r.2.2)

/-- `PairController._attempt_wol_fallback`: disabled or missing MAC
short-circuit to failure before any attempt. -/
def attemptWolFallback (cfg : PCConfig) (dev : Device) (c : Calls) :
    Bool × Calls × List Cmd :=
  if ¬ cfg.enableWolFallback then (false, c, [])
  else if ¬ cfg.hasFrameMac then (false, c, [])
  else wolLoop dev cfg.wolRetries c

/-- The wake block of `_enforce_desired_mode`, entered when the art-mode
read returned `None` and the TV was unreachable: remote wake first, then
re-probe and re-read on success; WOL fallback only when remote wake did
not succeed and the TV is still unreachable.  Returns the updated
`(actual_artmode, tv_reachable)` pair. -/
def wakeSequence (cfg : PCConfig) (dev : Device) (c : Calls) :
    Option Bool × Bool × Calls × List Cmd :=
  let r1 :=
    if cfg.enableRemoteWake then attemptRemoteWake cfg dev c
    else (false, c, [])
  let rwOk := r1.1
  let s1 : Option Bool × Bool × Calls :=
    if rwOk then
      let p := devProbe dev r1.2.1
      if p.1 then
        let g := devGetArtmode dev p.2
        (g.1, true, g.2)
      else (none, false, p.2)
    else (none, false, r1.2.1)
  if ¬ rwOk ∧ ¬ s1.2.1 ∧ cfg.enableWolFallback then
    let r2 := attemptWolFallback cfg dev s1.2.2
    if r2.1 then
      let p := devProbe dev r2.2.1
      if p.1 then
        let g := devGetArtmode dev p.2
        (g.1, true, g.2, r1.2.2 ++ r2.2.2)
      else (none, false, p.2, r1.2.2 ++ r2.2.2)
    else (s1.1, s1.2.1, r2.2.1, r1.2.2 ++ r2.2.2)
  else (s1.1, s1.2.1, s1.2.2, r1.2.2)

/-- Result of one enforcement entry: the controller state, the call
counters, the device commands dispatched, and whether the `NameError` of
`_record_command` escaped the call. -/
structure EnforceResult where
  state : PCState
  calls : Calls
  cmds : List Cmd
  raised : Bool
deriving DecidableEq, Repr

/-- The tail of `_enforce_desired_mode` after a command was dispatched:
`self._last_action_ts` was just set; `_record_command` runs (its
`NameError` aborts the remainder when the rate threshold is exceeded);
then failure bookkeeping, or on success the backoff reset and the
non-manual cooldown. -/
def enforceFinish (cfg : PCConfig) (nowUtc nowMono : Nat) (s5 : PCState)
    (c : Calls) (cmds : List Cmd) : EnforceResult :=
  let rc := recordCommand cfg nowUtc s5
  if rc.2 then
    { state := rc.1, calls := c, cmds := cmds, raised := true }
  else if rc.1.lastActionResult = false then
    { state := handleCommandFailure cfg nowUtc nowMono rc.1,
      calls := c, cmds := cmds, raised := false }
  else
    let s7 : PCState :=
      { rc.1 with connectionBackoffDelay := cfg.backoffInitial,
                  connectionBackoffUntilMonotonic := none,
                  connectionBackoffUntil := none,
                  lastBackoffLogTime := none }
    let s8 : PCState :=
      if s7.lastTrigger ≠ Trigger.manual then
        { s7 with cooldownUntilMonotonic := some (nowMono + cfg.cooldownSeconds),
                  cooldownUntil := some (nowUtc + cfg.cooldownSeconds) }
      else s7
    { state := s8, calls := c, cmds := cmds, raised := false }

/-- The per-mode command dispatch of `_enforce_desired_mode` ("state
change required"): phase, the force ladder or direct set, the best-effort
power toggle / input switch, and the action/result bookkeeping, followed
by `enforceFinish`. -/
def enforceCommand (cfg : PCConfig) (dev : Device) (nowUtc nowMono : Nat)
    (desired : Mode) (s2 : PCState) (c1 : Calls) (wakeCmds : List Cmd) :
    EnforceResult :=
  let cb : PCState × Calls × List Cmd :=
    match desired with
    | Mode.art =>
      let r := forceArtOn dev c1
      let success := r.1.1
      let act := r.1.2
      let s3 : PCState :=
        { s2 with phase := Phase.returningToArt,
                  lastAction := if success then "set_art_on" else act,
                  lastActionResult := success }
      let s4 : PCState :=
        if ¬ success then
          { s3 with lastError := some ("Failed to set Art Mode on: " ++ act),
                    commandFailCount := s3.commandFailCount + 1 }
        else s3
      (s4, r.2.1, r.2.2)
    | Mode.off =>
      let r := devSetArtmode dev false c1
      let success := r.1
      let afterToggle : Calls × List Cmd :=
        if success then
          let t := devPowerToggle dev r.2.1
          (t.2.1, r.2.2 ++ t.2.2)
        else (r.2.1, r.2.2)
      ({ s2 with phase := Phase.idle, lastAction := "tv_off",
                 lastActionResult := success },
       afterToggle.1, afterToggle.2)
    | Mode.atv =>
      let r := forceArtOff dev c1
      let success := r.1.1
      let act := r.1.2
      let afterSwitch : Calls × List Cmd :=
        if success then
          let sw := switchToAtvInput cfg dev r.2.1
          (sw.1, r.2.2 ++ sw.2)
        else (r.2.1, r.2.2)
      ({ s2 with phase := Phase.switchingToAtv,
                 lastAction := if success then "set_art_off" else act,
                 lastActionResult := success },
       afterSwitch.1, afterSwitch.2)
  enforceFinish cfg nowUtc nowMono { cb.1 with lastActionTs := some nowUtc }
    cb.2.1 (wakeCmds ++ cb.2.2)

/-- The part of `_enforce_desired_mode` after the reachability probe, the
art-mode read and the wake sequence produced `(actual, reach)`: the
degraded classification for an unreachable TV, the cached-state update,
the idempotency short-circuits, and the dispatch to the command phase. -/
def enforceWithActual (cfg : PCConfig) (dev : Device) (tvState : Option String)
    (startupElapsed nowUtc nowMono : Nat) (desired : Mode)
    (actual : Option Bool) (reach : Bool) (s1 : PCState) (c1 : Calls)
    (wakeCmds : List Cmd) : EnforceResult :=
  let isInStartupGrace := cfg.wakeStartupGrace > 0 ∧ startupElapsed < cfg.wakeStartupGrace
  if actual = none ∧ ¬ reach ∧ ¬ isInStartupGrace then
    let shouldLog : Bool :=
      match s1.lastDegradedLogTime with
      | some t => decide (¬ (nowMono - t < 300))
      | none => true
    let s2 : PCState :=
      if s1.pairHealth = Health.ok ∨ shouldLog = true then
        { s1 with pairHealth := Health.degraded, phase := Phase.degraded,
                  lastDegradedLogTime :=
                    if shouldLog then some nowMono else s1.lastDegradedLogTime }
      else s1
    { state := handleCommandFailure cfg nowUtc nowMono s2,
      calls := c1, cmds := wakeCmds, raised := false }
  else if actual = none ∧ ¬ reach then
    { state := handleCommandFailure cfg nowUtc nowMono s1,
      calls := c1, cmds := wakeCmds, raised := false }
  else
    let s2 : PCState :=
      match actual with
      | some b => { s1 with actualArtmode := some b }
      | none =>
        match tvState with
        | some st =>
          if st = "off" ∨ st = "unavailable" then { s1 with actualArtmode := some false }
          else { s1 with actualArtmode := none }
        | none => { s1 with actualArtmode := none }
    if desired = Mode.art ∧ actual = some true then
      { state := { s2 with phase := Phase.idle, lastAction := "none" },
        calls := c1, cmds := wakeCmds, raised := false }
    else if desired = Mode.off ∧ actual = some false then
      { state := { s2 with phase := Phase.idle, lastAction := "none" },
        calls := c1, cmds := wakeCmds, raised := false }
    else if desired = Mode.atv ∧ actual = some false then
      let sw := switchToAtvInput cfg dev c1
      { state := { s2 with phase := Phase.idle, lastAction := "none" },
        calls := sw.1, cmds := wakeCmds ++ sw.2, raised := false }
    else
      enforceCommand cfg dev nowUtc nowMono desired s2 c1 wakeCmds

/-- `PairController._enforce_desired_mode`, ported top to bottom: the
enabled / dry-run / breaker / connection-backoff gates; the reachability
probe and art-mode read; the wake sequence for an unreachable TV; then
`enforceWithActual` (degraded classification, cached-state update,
idempotency short-circuits, command dispatch and bookkeeping). -/
def enforceDesiredMode (cfg : PCConfig) (dev : Device) (tvState : Option String)
    (startupElapsed nowUtc nowMono : Nat) (desired : Mode)
    (s : PCState) (c : Calls) : EnforceResult :=
  if ¬ cfg.enabled then
    { state := { s with phase := Phase.idle }, calls := c, cmds := [], raised := false }
  else if cfg.dryRun then
    { state := { s with phase := Phase.dryRun }, calls := c, cmds := [], raised := false }
  else if s.breakerOpen then
    { state := { s with phase := Phase.breakerOpen }, calls := c, cmds := [], raised := false }
  else
    let backoffBlocked :=
      match s.connectionBackoffUntilMonotonic with
      | some d => decide (nowMono < d)
      | none => false
    if backoffBlocked then
      let s1 : PCState :=
        match s.connectionBackoffUntilMonotonic with
        | some d =>
          if s.lastBackoffLogTime ≠ some d then { s with lastBackoffLogTime := some d }
          else s
        | none => s
      { state := s1, calls := c, cmds := [], raised := false }
    else
      let s1 : PCState :=
        match s.connectionBackoffUntilMonotonic with
        | some _ =>
          { s with connectionBackoffUntilMonotonic := none,
                   connectionBackoffUntil := none, lastBackoffLogTime := none }
        | none => s
      let p := devProbe dev c
      let g := devGetArtmode dev p.2
      let w : Option Bool × Bool × Calls × List Cmd :=
        if g.1 = none ∧ ¬ p.1 then wakeSequence cfg dev g.2
        else (g.1, p.1, g.2, [])
      enforceWithActual cfg dev tvState startupElapsed nowUtc nowMono desired
        w.1 w.2.1 s1 w.2.2.1 w.2.2.2

/-- `PairController._should_enforce`: blocked during the startup grace
task and while the monotonic cooldown deadline is ahead; an expired
cooldown is cleared on the way through. -/
def shouldEnforce (startupGraceActive : Bool) (nowMono : Nat) (s : PCState) :
    Bool × PCState :=
  if startupGraceActive then (false, s)
  else
    match s.cooldownUntilMonotonic with
    | some d =>
      if nowMono < d then (false, s)
      else (true, { s with cooldownUntilMonotonic := none, cooldownUntil := none })
    | none => (true, s)

/-- `PairController._compute_and_enforce_locked`: the `_should_enforce`
gate (skipped under `force`); active-hours refresh; decision-engine
recomputation; the override monotonic/wall reconciliation and the
override gate (with ATV activity clearing the override); the delayed
return-to-art scheduling (cancel-and-replace, modelled by
`returnToArtPending`); and the final dispatch to the enforcement
pipeline unless outside active hours with a do-nothing night
behavior. -/
def computeAndEnforceLocked (cfg : PCConfig) (dev : Device)
    (tvState : Option String) (startupElapsed : Nat)
    (startupGraceActive : Bool) (nowUtc nowMono : Nat)
    (trigger : Option Trigger) (force : Bool)
    (s : PCState) (c : Calls) : EnforceResult :=
  let gate := shouldEnforce startupGraceActive nowMono s
  if ¬ force ∧ gate.1 = false then
    { state := s, calls := c, cmds := [], raised := false }
  else
    let s0 := if force then s else gate.2
    let s1 : PCState :=
      { s0 with inActiveHours :=
          is_time_in_window (nowUtc % 86400) cfg.activeStart cfg.activeEnd }
    let s2 : PCState :=
      match trigger with
      | some t => { s1 with lastTrigger := t }
      | none => s1
    let desired :=
      compute_desired_mode s2.atvActive s2.inActiveHours cfg.nightBehavior
        cfg.presenceMode s2.homeOk cfg.awayPolicy cfg.unknownBehavior
    let s3 : PCState := { s2 with desiredMode := some desired }
    let overrideUntil := s3.manualOverrideUntil
    let s4 : PCState :=
      match s3.manualOverrideUntilMonotonic with
      | some m =>
        if nowMono < m then
          match overrideUntil with
          | some u =>
            if nowUtc < u then s3
            else { s3 with manualOverrideUntil := none,
                           manualOverrideUntilMonotonic := none }
          | none =>
            { s3 with manualOverrideUntil := none,
                      manualOverrideUntilMonotonic := none }
        else
          { s3 with manualOverrideUntil := none,
                    manualOverrideUntilMonotonic := none }
      | none => s3
    let overrideGate : Option EnforceResult :=
      match overrideUntil with
      | some u =>
        if nowUtc < u then
          if desired = Mode.atv then none
          else
            some { state := { s4 with phase := Phase.manualOverride },
                   calls := c, cmds := [], raised := false }
        else none
      | none => none
    match overrideGate with
    | some r => r
    | none =>
      let s5 : PCState :=
        match overrideUntil with
        | some u =>
          if nowUtc < u ∧ desired = Mode.atv then
            { s4 with manualOverrideUntil := none,
                      manualOverrideUntilMonotonic := none }
          else s4
        | none => s4
      let previousWasAtv := s5.previousDesiredMode = some Mode.atv
      if desired = Mode.art ∧ ¬ s5.atvActive ∧ previousWasAtv then
        { state := { s5 with returnToArtPending := some cfg.returnDelaySeconds,
                             previousDesiredMode := some desired },
          calls := c, cmds := [], raised := false }
      else
        let s6 : PCState := { s5 with previousDesiredMode := some desired }
        if ¬ (¬ s6.inActiveHours ∧ cfg.nightBehavior = NightBehavior.doNothing) then
          enforceDesiredMode cfg dev tvState startupElapsed nowUtc nowMono desired s6 c
        else
          { state := { s6 with phase := Phase.idle }, calls := c, cmds := [], raised := false }

/-- `PairController._async_resync`, ported top to bottom: prune the
drift-correction window; the drift-correction cooldown, hourly-limit and
override early returns; the actual-state read; active-hours and presence
refresh (`homeOkNow` is what `_update_presence` reads from the presence
entity); desired-mode recomputation; drift detection; the
consecutive-drift counter with its 5-minute adjacency window; one-shot
override activation at 3 consecutive drifts; drift bookkeeping; and
enforcement unless the (possibly just activated) override is ahead. -/
def resyncCycle (cfg : PCConfig) (dev : Device) (tvState : Option String)
    (startupElapsed nowUtc nowMono : Nat) (homeOkNow : Option Bool)
    (s : PCState) (c : Calls) : EnforceResult :=
  let s0 : PCState :=
    { s with driftCorrectionsThisHour :=
        pruneFront 3600 nowUtc s.driftCorrectionsThisHour }
  let cooldownBlocked :=
    match s0.lastDriftCorrection with
    | some t => decide (nowUtc - t < cfg.driftCorrectionCooldownMinutes * 60)
    | none => false
  if cooldownBlocked then
    { state := s0, calls := c, cmds := [], raised := false }
  else if s0.driftCorrectionsThisHour.length ≥ cfg.maxDriftCorrectionsPerHour then
    { state := s0, calls := c, cmds := [], raised := false }
  else
    let overrideBlocked :=
      match s0.manualOverrideUntil with
      | some u => decide (nowUtc < u)
      | none => false
    if overrideBlocked then
      { state := s0, calls := c, cmds := [], raised := false }
    else
      let g := devGetArtmode dev c
      let actual := g.1
      let c1 := g.2
      let s1 : PCState :=
        { s0 with actualArtmode := actual,
                  inActiveHours :=
                    is_time_in_window (nowUtc % 86400) cfg.activeStart cfg.activeEnd,
                  homeOk := homeOkNow }
      let desired :=
        compute_desired_mode s1.atvActive s1.inActiveHours cfg.nightBehavior
          cfg.presenceMode s1.homeOk cfg.awayPolicy cfg.unknownBehavior
      let drift :=
        (desired = Mode.art ∧ actual ≠ some true) ∨
        (desired = Mode.atv ∧ actual = some true) ∨
        (desired = Mode.off ∧ actual ≠ some false)
      if drift then
        let count :=
          match s1.lastDriftAt with
          | some t => if nowUtc - t < 300 then s1.consecutiveDrifts + 1 else 1
          | none => 1
        let s2 : PCState :=
          { s1 with consecutiveDrifts := count, lastDriftAt := some nowUtc }
        let s3 : PCState :=
          if count ≥ 3 ∧ s2.manualOverrideUntil = none then
            { s2 with manualOverrideUntil := some (nowUtc + cfg.overrideMinutes * 60),
                      manualOverrideUntilMonotonic :=
                        some (nowMono + cfg.overrideMinutes * 60) }
          else s2
        let s4 : PCState :=
          { s3 with lastDriftCorrection := some nowUtc,
                    driftCorrectionsThisHour :=
                      s3.driftCorrectionsThisHour ++ [nowUtc] }
        let enforceAllowed :=
          match s4.manualOverrideUntil with
          | some u => decide (nowUtc ≥ u)
          | none => true
        if enforceAllowed then
          enforceDesiredMode cfg dev tvState startupElapsed nowUtc nowMono desired s4 c1
        else
          { state := s4, calls := c1, cmds := [], raised := false }
      else
        { state := { s1 with lastAction := "resync", lastActionResult := true },
          calls := c1, cmds := [], raised := false }

/-! ## Claim C8 — presence policy applies before all other rules -/

/-- C8: the decision function applies the presence policy first: with
`presenceMode = entity` and `homeOk = false`, `awayPolicy = turnOff`
yields Off and `keepArt` yields Art irrespective of activity, time window
and night behavior; with `homeOk` unknown, `treatAsAway` applies the away
policy, while `treatAsHome` and `ignore` fall through to the
window/activity logic (the logic of a presence-disabled configuration). -/
theorem C8_presence_policy_first :
    ∀ (a i : Bool) (n : NightBehavior) (ap : AwayPolicy) (u : UnknownBehavior),
      (compute_desired_mode a i n PresenceMode.entity (some false)
        AwayPolicy.turnTvOff u = Mode.off) ∧
      (compute_desired_mode a i n PresenceMode.entity (some false)
        AwayPolicy.keepArtOn u = Mode.art) ∧
      (compute_desired_mode a i n PresenceMode.entity none ap
        UnknownBehavior.treatAsAway =
        compute_desired_mode a i n PresenceMode.entity (some false) ap u) ∧
      (compute_desired_mode a i n PresenceMode.entity none ap
        UnknownBehavior.treatAsHome =
        compute_desired_mode a i n PresenceMode.disabled none ap u) ∧
      (compute_desired_mode a i n PresenceMode.entity none ap
        UnknownBehavior.ignore =
        compute_desired_mode a i n PresenceMode.disabled none ap u) := by
  decide

/-! ## Claim C9 — time-window membership with midnight crossover -/

/-- C9: the time-window test returns membership in the closed interval
`[start, end]` when `start ≤ end`, and `(now ≥ start) ∨ (now ≤ end)` when
`start > end`; the window 22:00–06:00 contains 23:59:00 and 05:59:00 and
does not contain 12:00:00. -/
theorem C9_time_window_membership :
    (∀ now s e : Nat, s ≤ e →
      (is_time_in_window now s e = true ↔ now ∈ Set.Icc s e)) ∧
    (∀ now s e : Nat, e < s →
      (is_time_in_window now s e = true ↔ (now ≥ s ∨ now ≤ e))) ∧
    is_time_in_window (timeOfDay 23 59 0) (timeOfDay 22 0 0) (timeOfDay 6 0 0)
      = true ∧
    is_time_in_window (timeOfDay 5 59 0) (timeOfDay 22 0 0) (timeOfDay 6 0 0)
      = true ∧
    is_time_in_window (timeOfDay 12 0 0) (timeOfDay 22 0 0) (timeOfDay 6 0 0)
      = false := by
  refine ⟨?_, ?_, by decide, by decide, by decide⟩
  · intro now s e h
    simp [is_time_in_window, h, Set.mem_Icc]
  · intro now s e h
    have h2 : ¬ (s ≤ e) := by omega
    simp [is_time_in_window, h2]

/-- Witness for C9: the theorem applied at a concrete in-order window and
a concrete inverted window. -/
theorem C9_time_window_membership_witness :
    ((3 : Nat) ≤ 7 ∧
      (is_time_in_window 5 3 7 = true ↔ (5 : Nat) ∈ Set.Icc 3 7)) ∧
    ((2 : Nat) < 9 ∧
      (is_time_in_window 1 9 2 = true ↔ ((1 : Nat) ≥ 9 ∨ (1 : Nat) ≤ 2))) :=
  ⟨⟨by decide, C9_time_window_membership.1 5 3 7 (by decide)⟩,
   ⟨by decide, C9_time_window_membership.2.1 1 9 2 (by decide)⟩⟩

/-! ## Test fixtures (shared by several claims) -/

/-- A device oracle whose transport always acknowledges and whose art-mode
reads always report ON. -/
def devArtOn : Device :=
  { setArt := fun _ _ => true, powerToggle := fun _ => true,
    getArt := fun _ => some true, setSource := fun _ => true,
    remoteCall := fun _ => true, wolSend := fun _ => true,
    reachProbe := fun _ => true, verifyTimeUp := fun _ => false }

/-- A device oracle whose transport always acknowledges and whose art-mode
reads always report OFF. -/
def devArtOff : Device :=
  { setArt := fun _ _ => true, powerToggle := fun _ => true,
    getArt := fun _ => some false, setSource := fun _ => true,
    remoteCall := fun _ => true, wolSend := fun _ => true,
    reachProbe := fun _ => true, verifyTimeUp := fun _ => false }

/-- A plain test configuration. -/
def cfgTest : PCConfig :=
  { enabled := true, dryRun := false,
    activeStart := timeOfDay 6 0 0, activeEnd := timeOfDay 22 0 0,
    nightBehavior := NightBehavior.forceOff,
    presenceMode := PresenceMode.disabled,
    awayPolicy := AwayPolicy.disabled,
    unknownBehavior := UnknownBehavior.ignore,
    inputMode := InputMode.hdmi1,
    cooldownSeconds := 60, maxCommandsPer5Min := 10,
    overrideMinutes := 60, maxDriftCorrectionsPerHour := 100,
    driftCorrectionCooldownMinutes := 0, returnDelaySeconds := 45,
    backoffInitial := 30, backoffMultiplier := 2, backoffMax := 600,
    enableRemoteWake := false, hasWakeRemoteEntity := false,
    enableWolFallback := false, hasFrameMac := false,
    remoteWakeRetries := 3, wolRetries := 3, wakeStartupGrace := 0 }

/-- The controller state right after construction. -/
def pcInit : PCState :=
  { atvActive := false, desiredMode := none, previousDesiredMode := none,
    actualArtmode := none, inActiveHours := false, homeOk := none,
    phase := Phase.idle, manualOverrideUntil := none,
    manualOverrideUntilMonotonic := none, lastTrigger := Trigger.startup,
    lastAction := "none", lastActionResult := true, lastActionTs := none,
    lastError := none, pairHealth := Health.ok, cooldownUntil := none,
    cooldownUntilMonotonic := none, commandTimes := [], breakerOpen := false,
    breakerOpenUntil := none, breakerOpenUntilMonotonic := none,
    connectionBackoffUntil := none, connectionBackoffUntilMonotonic := none,
    connectionBackoffDelay := 30, lastBackoffLogTime := none,
    lastDegradedLogTime := none, driftCorrectionsThisHour := [],
    lastDriftCorrection := none, lastDriftAt := none, consecutiveDrifts := 0,
    commandFailCount := 0, connectionFailures := 0, returnToArtPending := none }

/-! ## Claim C5 — disconnect commits `active=false` (code bug) -/

/-- C5 (the code evaluated at the failing input): with prior
`active = true` and `grace_seconds = 0`, `_handle_disconnect` takes its
else branch and calls `_set_state(False, "disconnected")` — but that call
early-returns, because the connection object was just dropped and the
grace field just cleared (`not self.atv and not self._grace_until`).  So
no debounce commit is scheduled, the subscriber is never notified, and the
previous active value `true` is silently kept, where the claim (and the
spec) say `active = false` is committed and the subscriber notified. -/
theorem C5_disconnect_drops_commit :
    handleDisconnect 2 0 1000
      { connected := true, graceUntil := none, currentState := true,
        playbackState := "playing", powerState := PowerState.on,
        pending := some (1001, true, "playing"), commits := [] }
    = { connected := false, graceUntil := none, currentState := true,
        playbackState := "unknown", powerState := PowerState.unknown,
        pending := none, commits := [] } := by
  decide

/-! ## Claim C3 — idempotency short-circuit -/

/-- C3 counterexample: with `desired = Source` (ATV), the actual state
read as art-mode OFF and the default `input_mode = hdmi1`, the enforcement
pipeline takes the idempotency branch and sets the phase to Idle — but it
still dispatches a best-effort input-switch command through
`_switch_to_atv_input`, so it does not issue zero device commands as the
claim states. -/
theorem C3_source_branch_issues_input_switch :
    (enforceDesiredMode cfgTest devArtOff none 0 1000 100 Mode.atv pcInit
        Calls.init).cmds = [Cmd.setSource InputMode.hdmi1] ∧
    (enforceDesiredMode cfgTest devArtOff none 0 1000 100 Mode.atv pcInit
        Calls.init).state.phase = Phase.idle := by
  constructor <;> decide

/-- C3 as amended: when the actual state read during enforcement already
corresponds to the desired mode, the pipeline sets the phase to Idle and
issues no art-mode or power command; for desired=Art (art on) and
desired=Off (art off) it issues zero device commands, and for
desired=Source (art off) it issues zero device commands when input
switching is disabled (`input_mode = none`) and exactly one best-effort
input-switch command when an HDMI input is configured. -/
theorem C3_idempotency_short_circuit (cfg : PCConfig) (dev : Device)
    (tvState : Option String) (se nu nm : Nat) (s : PCState) (c : Calls)
    (hen : cfg.enabled = true) (hdr : cfg.dryRun = false)
    (hbr : s.breakerOpen = false)
    (hbo : s.connectionBackoffUntilMonotonic = none) :
    (dev.getArt c.getCount = some true →
      (enforceDesiredMode cfg dev tvState se nu nm Mode.art s c).cmds = [] ∧
      (enforceDesiredMode cfg dev tvState se nu nm Mode.art s c).state.phase
        = Phase.idle) ∧
    (dev.getArt c.getCount = some false →
      (enforceDesiredMode cfg dev tvState se nu nm Mode.off s c).cmds = [] ∧
      (enforceDesiredMode cfg dev tvState se nu nm Mode.off s c).state.phase
        = Phase.idle) ∧
    (dev.getArt c.getCount = some false → cfg.inputMode = InputMode.noInput →
      (enforceDesiredMode cfg dev tvState se nu nm Mode.atv s c).cmds = [] ∧
      (enforceDesiredMode cfg dev tvState se nu nm Mode.atv s c).state.phase
        = Phase.idle) ∧
    (dev.getArt c.getCount = some false →
      (cfg.inputMode = InputMode.hdmi1 ∨ cfg.inputMode = InputMode.hdmi2 ∨
        cfg.inputMode = InputMode.hdmi3) →
      (enforceDesiredMode cfg dev tvState se nu nm Mode.atv s c).cmds
        = [Cmd.setSource cfg.inputMode] ∧
      (enforceDesiredMode cfg dev tvState se nu nm Mode.atv s c).state.phase
        = Phase.idle) := by
  refine ⟨?_, ?_, ?_, ?_⟩
  · intro hget
    simp [enforceDesiredMode, enforceWithActual, enforceCommand, enforceFinish, hen, hdr, hbr, hbo, devProbe, devGetArtmode, hget]
  · intro hget
    simp [enforceDesiredMode, enforceWithActual, enforceCommand, enforceFinish, hen, hdr, hbr, hbo, devProbe, devGetArtmode, hget]
  · intro hget hin
    simp [enforceDesiredMode, enforceWithActual, enforceCommand, enforceFinish, hen, hdr, hbr, hbo, devProbe, devGetArtmode, hget,
      switchToAtvInput, hin]
  · intro hget hin
    rcases hin with h | h | h <;>
      simp [enforceDesiredMode, enforceWithActual, enforceCommand, enforceFinish, hen, hdr, hbr, hbo, devProbe, devGetArtmode,
        hget, switchToAtvInput, devSetSource, h]

/-- Witness for the amended C3 theorem: the Art branch applied at a
concrete configuration and device. -/
theorem C3_idempotency_short_circuit_witness :
    devArtOn.getArt Calls.init.getCount = some true ∧
    (enforceDesiredMode cfgTest devArtOn none 0 1000 100 Mode.art pcInit
        Calls.init).cmds = [] ∧
    (enforceDesiredMode cfgTest devArtOn none 0 1000 100 Mode.art pcInit
        Calls.init).state.phase = Phase.idle :=
  ⟨rfl,
    (C3_idempotency_short_circuit cfgTest devArtOn none 0 1000 100 pcInit
        Calls.init rfl rfl rfl rfl).1 rfl⟩

/-! ## Claim C4 — verification failure downgrades a successful send -/

/-- If no read ever reports the expected state, the verification loop
returns false whatever the attempt budget, start index and timing. -/
theorem verifyLoop_never_matches (dev : Device) (expected : Bool)
    (h : ∀ i, dev.getArt i ≠ some expected) :
    ∀ (fuel attempt : Nat) (c : Calls),
      (verifyLoop dev expected fuel attempt c).1 = false := by
  intro fuel
  induction fuel with
  | zero => intro attempt c; rfl
  | succ f ih =>
    intro attempt c
    by_cases ht : dev.verifyTimeUp attempt
    · simp [verifyLoop, ht]
    · simp [verifyLoop, ht, devGetArtmode, h, ih]

/-- Projection of an if-then-else, used to push result projections through
the untaken oracle branches. -/
theorem fst_ite {α β : Type} (P : Prop) [Decidable P] (a b : α × β) :
    (if P then a else b).1 = if P then a.1 else b.1 := by
  split <;> rfl

/-- `async_force_art_on` reports failure when no read of the art state
ever sees it on: every strategy's verification fails, so its nominally
successful sends are all downgraded. -/
theorem forceArtOn_false_of_never_on (dev : Device) (c : Calls)
    (h : ∀ i, dev.getArt i ≠ some true) :
    (forceArtOn dev c).1.1 = false := by
  have hv : ∀ cc : Calls, (verifyArtmode dev true cc).1 = false :=
    fun cc => verifyLoop_never_matches dev true h 10 0 cc
  simp [forceArtOn, forceArtOnStep2, forceArtOnStep3, hv, fst_ite]

/-- `async_force_art_off` reports failure when no read of the art state
ever sees it off. -/
theorem forceArtOff_false_of_never_off (dev : Device) (c : Calls)
    (h : ∀ i, dev.getArt i ≠ some false) :
    (forceArtOff dev c).1.1 = false := by
  have hv : ∀ cc : Calls, (verifyArtmode dev false cc).1 = false :=
    fun cc => verifyLoop_never_matches dev false h 10 0 cc
  simp [forceArtOff, forceArtOffStep2, hv, fst_ite]

/-- C4 counterexample: in the MODE_OFF enforcement branch
(`_enforce_desired_mode`), the controller issues `async_set_artmode(False)`
and records the transport acknowledgement directly — there is no
verification step.  With a device whose sends always acknowledge but whose
art-mode reads always report ON (so a verification of "off" could never
observe the expected state), the enforcement is recorded as an overall
success (`lastActionResult` is SUCCESS), refuting the claim that such a
send is never recorded as a success. -/
theorem C4_off_branch_trusts_ack :
    (∀ i, devArtOn.getArt i ≠ some false) ∧
    (enforceDesiredMode cfgTest devArtOn none 0 1000 100 Mode.off pcInit
        Calls.init).state.lastActionResult = true ∧
    (enforceDesiredMode cfgTest devArtOn none 0 1000 100 Mode.off pcInit
        Calls.init).state.lastAction = "tv_off" := by
  refine ⟨fun i => by simp [devArtOn], by decide, by decide⟩

/-- C4 as amended: for the Art-on command and the Art-off-for-Source
command, a send the transport acknowledges but whose verification never
observes the expected state is recorded as an overall failure — both at
the executor level (the fallback ladders return failure) and in the
enforcement bookkeeping (failure result, failure counter); the
turn-display-off branch, however, performs no verification and records
the transport acknowledgement alone. -/
theorem C4_verification_downgrades_send (dev : Device) (c : Calls)
    (cfg : PCConfig) (se nu nm : Nat) (s : PCState)
    (hen : cfg.enabled = true) (hdr : cfg.dryRun = false)
    (hbr : s.breakerOpen = false)
    (hbo : s.connectionBackoffUntilMonotonic = none)
    (hreach : ∀ i, dev.reachProbe i = true)
    (hrec : s.commandTimes = []) (hmax : 1 ≤ cfg.maxCommandsPer5Min) :
    ((∀ i, dev.getArt i ≠ some true) →
      (forceArtOn dev c).1.1 = false ∧
      (enforceDesiredMode cfg dev none se nu nm Mode.art s c).state.lastActionResult
        = false ∧
      (enforceDesiredMode cfg dev none se nu nm Mode.art s c).state.commandFailCount
        = s.commandFailCount + 2) ∧
    ((∀ i, dev.getArt i ≠ some false) →
      (forceArtOff dev c).1.1 = false ∧
      (enforceDesiredMode cfg dev none se nu nm Mode.atv s c).state.lastActionResult
        = false ∧
      (enforceDesiredMode cfg dev none se nu nm Mode.atv s c).state.commandFailCount
        = s.commandFailCount + 1) := by
  have hnp : ¬ (nu + 300 < nu) := by omega
  have hm2 : ¬ (1 > cfg.maxCommandsPer5Min) := by omega
  constructor
  · intro h
    have hfo : ∀ cc : Calls, (forceArtOn dev cc).1.1 = false :=
      fun cc => forceArtOn_false_of_never_on dev cc h
    have hne := h c.getCount
    refine ⟨hfo c, ?_⟩
    rcases hval : dev.getArt c.getCount with _ | b
    · constructor <;>
        (simp [enforceDesiredMode, enforceWithActual, enforceCommand, enforceFinish, hen, hdr, hbr, hbo, devProbe, devGetArtmode,
          hval, hreach, hfo, recordCommand, pruneFront, hrec, hnp, hm2,
          handleCommandFailure]
         try (split <;> rfl))
    · have hb : b = false := by
        cases b
        · rfl
        · exact absurd hval hne
      subst hb
      constructor <;>
        (simp [enforceDesiredMode, enforceWithActual, enforceCommand, enforceFinish, hen, hdr, hbr, hbo, devProbe, devGetArtmode,
          hval, hreach, hfo, recordCommand, pruneFront, hrec, hnp, hm2,
          handleCommandFailure]
         try (split <;> rfl))
  · intro h
    have hfo : ∀ cc : Calls, (forceArtOff dev cc).1.1 = false :=
      fun cc => forceArtOff_false_of_never_off dev cc h
    have hne := h c.getCount
    refine ⟨hfo c, ?_⟩
    rcases hval : dev.getArt c.getCount with _ | b
    · constructor <;>
        (simp [enforceDesiredMode, enforceWithActual, enforceCommand, enforceFinish, hen, hdr, hbr, hbo, devProbe, devGetArtmode,
          hval, hreach, hfo, recordCommand, pruneFront, hrec, hnp, hm2,
          handleCommandFailure]
         try (split <;> rfl))
    · have hb : b = true := by
        cases b
        · exact absurd hval hne
        · rfl
      subst hb
      constructor <;>
        (simp [enforceDesiredMode, enforceWithActual, enforceCommand, enforceFinish, hen, hdr, hbr, hbo, devProbe, devGetArtmode,
          hval, hreach, hfo, recordCommand, pruneFront, hrec, hnp, hm2,
          handleCommandFailure]
         try (split <;> rfl))

/-- Witness for the amended C4 theorem: applied at a concrete device whose
reads always report OFF (so Art-on verification can never match). -/
theorem C4_verification_downgrades_send_witness :
    (∀ i, devArtOff.getArt i ≠ some true) ∧
    (forceArtOn devArtOff Calls.init).1.1 = false ∧
    (enforceDesiredMode cfgTest devArtOff none 0 1000 100 Mode.art pcInit
        Calls.init).state.lastActionResult = false ∧
    (enforceDesiredMode cfgTest devArtOff none 0 1000 100 Mode.art pcInit
        Calls.init).state.commandFailCount = pcInit.commandFailCount + 2 := by
  have h : ∀ i, devArtOff.getArt i ≠ some true := fun i => by simp [devArtOff]
  have hmain :=
    (C4_verification_downgrades_send devArtOff Calls.init cfgTest 0 1000 100
      pcInit rfl rfl rfl rfl (fun i => rfl) rfl (by decide)).1 h
  exact ⟨h, hmain.1, hmain.2.1, hmain.2.2⟩

/-! ## Claim C7 — debounce coalescing -/

/-- A timeline of raw `(time, active, playback)` changes delivered to
`_set_state`: the event loop runs an elapsed debounce timer before the
next raw change is handled, so each step first fires a due timer, then
processes the raw change (which cancels and replaces any in-flight
timer). -/
def debounceTimeline (d : Nat) (s : ATVState)
    (raws : List (Nat × Bool × String)) : ATVState :=
  raws.foldl (fun st r => setState d r.1 r.2.1 r.2.2 (fireDebounce r.1 st)) s

/-- Each raw change arrives no earlier than the previous one and strictly
before the previous change's debounce timer would fire (within
`debounceSeconds` of the previous change). -/
def rawChainFrom (d t : Nat) : List (Nat × Bool × String) → Bool
  | [] => true
  | r :: rs => (decide (t ≤ r.1) && decide (r.1 < t + d)) && rawChainFrom d r.1 rs

/-- While raw changes keep arriving inside the debounce window, nothing is
committed and the in-flight timer is always the latest change's
(cancel-and-replace). -/
theorem debounceTimeline_chain (d : Nat) :
    ∀ (rs : List (Nat × Bool × String)) (s : ATVState) (t : Nat) (a : Bool)
      (p : String),
      s.connected = true → s.pending = some (t + d, a, p) →
      rawChainFrom d t rs = true →
      debounceTimeline d s rs =
        { s with pending := some ((rs.getLastD (t, a, p)).1 + d,
                                  (rs.getLastD (t, a, p)).2.1,
                                  (rs.getLastD (t, a, p)).2.2) } := by
  intro rs
  induction rs with
  | nil =>
    intro s t a p hc hp hch
    cases s
    simp_all [debounceTimeline, List.getLastD]
  | cons r rs ih =>
    intro s t a p hc hp hch
    rw [rawChainFrom] at hch
    simp only [Bool.and_eq_true, decide_eq_true_eq] at hch
    obtain ⟨⟨h1, h2⟩, h3⟩ := hch
    have hfire : fireDebounce r.1 s = s := by
      simp [fireDebounce, hp, h2]
    have hset : setState d r.1 r.2.1 r.2.2 s
        = { s with pending := some (r.1 + d, r.2.1, r.2.2) } := by
      simp [setState, hc]
    have hstep := ih { s with pending := some (r.1 + d, r.2.1, r.2.2) }
      r.1 r.2.1 r.2.2 hc rfl h3
    calc debounceTimeline d s (r :: rs)
        = debounceTimeline d { s with pending := some (r.1 + d, r.2.1, r.2.2) } rs := by
          simp [debounceTimeline, hfire, hset]
      _ = _ := by rw [hstep, List.getLastD_cons]

/-- C7: N raw `(active, playbackState)` changes each arriving within
`debounceSeconds` of the previous one produce exactly one committed state
change and one subscriber notification, whose value is the last raw value
observed; during the burst every new raw change cancels and replaces the
in-flight debounce timer (the pending timer is always the last change's)
and nothing is committed until the final timer elapses uncancelled. -/
theorem C7_debounce_coalescing (d : Nat) (first : Nat × Bool × String)
    (rest : List (Nat × Bool × String)) (s : ATVState) (T : Nat)
    (hc : s.connected = true) (hp : s.pending = none) (hcm : s.commits = [])
    (hch : rawChainFrom d first.1 rest = true)
    (hT : (rest.getLastD first).1 + d ≤ T) :
    debounceTimeline d s (first :: rest) =
      { s with pending := some ((rest.getLastD first).1 + d,
                                (rest.getLastD first).2.1,
                                (rest.getLastD first).2.2) } ∧
    (fireDebounce T (debounceTimeline d s (first :: rest))).commits
      = [((rest.getLastD first).2.1, (rest.getLastD first).2.2)] ∧
    (fireDebounce T (debounceTimeline d s (first :: rest))).currentState
      = (rest.getLastD first).2.1 := by
  have hfire : fireDebounce first.1 s = s := by
    simp [fireDebounce, hp]
  have hset : setState d first.1 first.2.1 first.2.2 s
      = { s with pending := some (first.1 + d, first.2.1, first.2.2) } := by
    simp [setState, hc]
  have hrun : debounceTimeline d s (first :: rest)
      = { s with pending := some ((rest.getLastD first).1 + d,
                                  (rest.getLastD first).2.1,
                                  (rest.getLastD first).2.2) } := by
    have hstep := debounceTimeline_chain d rest
      { s with pending := some (first.1 + d, first.2.1, first.2.2) }
      first.1 first.2.1 first.2.2 hc rfl hch
    calc debounceTimeline d s (first :: rest)
        = debounceTimeline d
            { s with pending := some (first.1 + d, first.2.1, first.2.2) } rest := by
          simp [debounceTimeline, hfire, hset]
      _ = _ := by rw [hstep]
  rw [List.getLastD_eq_getLast?] at hT
  have hT2 : ¬ (T < (rest.getLast?.getD first).1 + d) := Nat.not_lt.mpr hT
  refine ⟨hrun, ?_, ?_⟩ <;>
    simp [hrun, fireDebounce, hc, hcm, hT2, Prod.mk.eta]

/-- Witness for C7: a burst of three raw toggles 2 seconds apart under a
3-second debounce commits once, with the last raw value. -/
theorem C7_debounce_coalescing_witness :
    ({ connected := true, graceUntil := none, currentState := false,
       playbackState := "idle", powerState := PowerState.unknown,
       pending := none, commits := [] } : ATVState).connected = true ∧
    rawChainFrom 3 0 [(2, false, "idle"), (4, true, "playing")] = true ∧
    (fireDebounce 10 (debounceTimeline 3
        { connected := true, graceUntil := none, currentState := false,
          playbackState := "idle", powerState := PowerState.unknown,
          pending := none, commits := [] }
        [(0, true, "playing"), (2, false, "idle"), (4, true, "playing")])).commits
      = [(true, "playing")] :=
  ⟨rfl, by decide,
    (C7_debounce_coalescing 3 (0, true, "playing")
      [(2, false, "idle"), (4, true, "playing")]
      { connected := true, graceUntil := none, currentState := false,
        playbackState := "idle", powerState := PowerState.unknown,
        pending := none, commits := [] }
      10 rfl rfl rfl (by decide) (by decide)).2.1⟩

/-! ## Claim C6 — the grace window holds the active signal -/

/-- One activity-monitor event delivered while the grace deadline is ahead
preserves the grace deadline, the current (observable) active value, and
the property that any in-flight debounce value and any notification sent
carries that same value. -/
theorem atvStep_grace_inv (mode : ActiveMode) (d g : Nat) (v0 : Bool)
    (s : ATVState) (e : ATVEvent)
    (hg : s.graceUntil = some g) (hcur : s.currentState = v0)
    (hp : ∀ x, s.pending = some x → x.2.1 = v0)
    (hcm : ∀ x ∈ s.commits, x.1 = v0)
    (he : eventBefore g e = true) :
    (atvStep mode d s e).graceUntil = some g ∧
    (atvStep mode d s e).currentState = v0 ∧
    (∀ x, (atvStep mode d s e).pending = some x → x.2.1 = v0) ∧
    (∀ x ∈ (atvStep mode d s e).commits, x.1 = v0) := by
  cases e with
  | play now ps =>
    simp only [eventBefore, decide_eq_true_eq] at he
    by_cases hcon : s.connected
    · have hga : graceActive (some g) now = true := by
        simp [graceActive, he]
      have heq : atvStep mode d s (ATVEvent.play now ps)
          = { s with
              pending := some (now + d, s.currentState, playbackStateFromPlaying ps) } := by
        simp [atvStep, playstatusUpdate, hcon, hga, setState, hg]
      rw [heq]
      exact ⟨hg, hcur,
        fun x hx => by injection hx with h; subst h; exact hcur, hcm⟩
    · have heq : atvStep mode d s (ATVEvent.play now ps) = s := by
        simp [atvStep, playstatusUpdate, hcon]
      rw [heq]
      exact ⟨hg, hcur, hp, hcm⟩
  | power now p =>
    simp only [eventBefore, decide_eq_true_eq] at he
    by_cases hcon : s.connected
    · have hga : graceActive (some g) now = true := by
        simp [graceActive, he]
      have heq : atvStep mode d s (ATVEvent.power now p)
          = { s with powerState := p,
                     pending := some (now + d, s.currentState, s.playbackState) } := by
        simp [atvStep, powerstateUpdate, hcon, computeActive, hga, setState, hg]
      rw [heq]
      exact ⟨hg, hcur,
        fun x hx => by injection hx with h; subst h; exact hcur, hcm⟩
    · have heq : atvStep mode d s (ATVEvent.power now p) = s := by
        simp [atvStep, powerstateUpdate, hcon]
      rw [heq]
      exact ⟨hg, hcur, hp, hcm⟩
  | poll now ps p =>
    simp only [eventBefore, decide_eq_true_eq] at he
    by_cases hcon : s.connected
    · rcases p with _ | pw <;> rcases ps with _ | dsv <;>
        [skip; skip; skip; skip] <;>
      · first
        | (have heq : atvStep mode d s (ATVEvent.poll now none none) = s := by
            simp [atvStep, pollUpdate, hcon, computeActive, graceActive, hg, he]
           rw [heq]; exact ⟨hg, hcur, hp, hcm⟩)
        | (have heq : atvStep mode d s (ATVEvent.poll now (some dsv) none)
              = { s with playbackState := playbackStateFromPlaying (some dsv) } := by
            simp [atvStep, pollUpdate, hcon, computeActive, graceActive, hg, he]
           rw [heq]; exact ⟨hg, hcur, hp, hcm⟩)
        | (have heq : atvStep mode d s (ATVEvent.poll now none (some pw))
              = { s with powerState := pw } := by
            simp [atvStep, pollUpdate, hcon, computeActive, graceActive, hg, he]
           rw [heq]; exact ⟨hg, hcur, hp, hcm⟩)
        | (have heq : atvStep mode d s (ATVEvent.poll now (some dsv) (some pw))
              = { s with powerState := pw,
                         playbackState := playbackStateFromPlaying (some dsv) } := by
            simp [atvStep, pollUpdate, hcon, computeActive, graceActive, hg, he]
           rw [heq]; exact ⟨hg, hcur, hp, hcm⟩)
    · have heq : atvStep mode d s (ATVEvent.poll now ps p) = s := by
        simp [atvStep, pollUpdate, hcon]
      rw [heq]
      exact ⟨hg, hcur, hp, hcm⟩
  | fire now =>
    rcases hpv : s.pending with _ | x
    · have heq : atvStep mode d s (ATVEvent.fire now) = s := by
        simp [atvStep, fireDebounce, hpv]
      rw [heq]
      exact ⟨hg, hcur, hp, hcm⟩
    · rcases x with ⟨ft, a, pb⟩
      have hx : a = v0 := hp (ft, a, pb) hpv
      by_cases hlt : now < ft
      · have heq : atvStep mode d s (ATVEvent.fire now) = s := by
          simp [atvStep, fireDebounce, hpv, hlt]
        rw [heq]
        exact ⟨hg, hcur, hp, hcm⟩
      · have heq : atvStep mode d s (ATVEvent.fire now)
            = { s with pending := none, currentState := a, playbackState := pb,
                       commits := s.commits ++ [(a, pb)] } := by
          simp [atvStep, fireDebounce, hpv, hlt, hg]
        rw [heq]
        refine ⟨hg, hx, fun x hx2 => by simp at hx2, ?_⟩
        intro y hy
        rcases List.mem_append.mp hy with hold | hnew
        · exact hcm y hold
        · have : y = (a, pb) := List.mem_singleton.mp hnew
          rw [this]
          exact hx
  | setConn b =>
    have heq : atvStep mode d s (ATVEvent.setConn b) = { s with connected := b } := by
      simp [atvStep]
    rw [heq]
    exact ⟨hg, hcur, hp, hcm⟩

/-- Runs of activity-monitor events entirely inside the grace window
preserve the active value and only ever notify that value. -/
theorem atvRun_grace_inv (mode : ActiveMode) (d g : Nat) (v0 : Bool) :
    ∀ (es : List ATVEvent) (s : ATVState),
      s.graceUntil = some g → s.currentState = v0 →
      (∀ x, s.pending = some x → x.2.1 = v0) →
      (∀ x ∈ s.commits, x.1 = v0) →
      (∀ e ∈ es, eventBefore g e = true) →
      (atvRun mode d s es).graceUntil = some g ∧
      (atvRun mode d s es).currentState = v0 ∧
      (∀ x, (atvRun mode d s es).pending = some x → x.2.1 = v0) ∧
      (∀ x ∈ (atvRun mode d s es).commits, x.1 = v0) := by
  intro es
  induction es with
  | nil =>
    intro s hg hcur hp hcm _
    exact ⟨hg, hcur, hp, hcm⟩
  | cons e es ih =>
    intro s hg hcur hp hcm he
    have hstep := atvStep_grace_inv mode d g v0 s e hg hcur hp hcm
      (he e (List.mem_cons_self e es))
    have hrest : ∀ x ∈ es, eventBefore g x = true :=
      fun x hx => he x (List.mem_cons_of_mem e hx)
    have := ih (atvStep mode d s e) hstep.1 hstep.2.1 hstep.2.2.1
      hstep.2.2.2 hrest
    simpa [atvRun] using this

/-- C6: for every sequence of raw activity/playback updates, power
updates, poll refreshes, debounce-timer fires and connection-state changes
arriving while `graceUntil` is in the future, the observable `active`
signal of the activity monitor equals its pre-disconnect value `v0`,
regardless of the connection state or the content of the updates — and
every committed notification sent during the window also carries `v0`. -/
theorem C6_grace_holds_active (mode : ActiveMode) (d g : Nat)
    (es : List ATVEvent) (conn v0 : Bool) (pb : String) (pw : PowerState)
    (he : ∀ e ∈ es, eventBefore g e = true) :
    (atvRun mode d
      { connected := conn, graceUntil := some g, currentState := v0,
        playbackState := pb, powerState := pw, pending := none,
        commits := [] } es).currentState = v0 ∧
    (∀ x ∈ (atvRun mode d
      { connected := conn, graceUntil := some g, currentState := v0,
        playbackState := pb, powerState := pw, pending := none,
        commits := [] } es).commits, x.1 = v0) := by
  have h := atvRun_grace_inv mode d g v0 es
    { connected := conn, graceUntil := some g, currentState := v0,
      playbackState := pb, powerState := pw, pending := none, commits := [] }
    rfl rfl (fun x hx => by simp at hx) (fun x hx => by simp at hx) he
  exact ⟨h.2.1, h.2.2.2⟩

/-- Witness for C6: a playing/paused/power burst and a timer fire inside a
grace window ending at 100 leave the held value `true` unchanged. -/
theorem C6_grace_holds_active_witness :
    (∀ e ∈ [ATVEvent.play 10 (some DeviceState.idle),
            ATVEvent.power 20 PowerState.off,
            ATVEvent.setConn false,
            ATVEvent.fire 30,
            ATVEvent.poll 40 (some DeviceState.paused) (some PowerState.on)],
      eventBefore 100 e = true) ∧
    (atvRun ActiveMode.playingOrPaused 5
      { connected := true, graceUntil := some 100, currentState := true,
        playbackState := "playing", powerState := PowerState.on,
        pending := none, commits := [] }
      [ATVEvent.play 10 (some DeviceState.idle),
       ATVEvent.power 20 PowerState.off,
       ATVEvent.setConn false,
       ATVEvent.fire 30,
       ATVEvent.poll 40 (some DeviceState.paused) (some PowerState.on)]).currentState
      = true :=
  ⟨by decide,
    (C6_grace_holds_active ActiveMode.playingOrPaused 5 100
      [ATVEvent.play 10 (some DeviceState.idle),
       ATVEvent.power 20 PowerState.off,
       ATVEvent.setConn false,
       ATVEvent.fire 30,
       ATVEvent.poll 40 (some DeviceState.paused) (some PowerState.on)]
      true true "playing" PowerState.on (by decide)).1⟩

/-! ## Claim C1 — circuit breaker (code bug) -/

/-- A sequence of issued commands recorded one `_record_command` call at a
time; the flag records whether any call raised the `NameError` of
pair_controller.py line 1004. -/
def recordRunGo (cfg : PCConfig) (acc : PCState × Bool) (ts : List Nat) :
    PCState × Bool :=
  ts.foldl (fun a t =>
    let r := recordCommand cfg t a.1
    (r.1, a.2 || r.2)) acc

/-- `recordRunGo` from a clean flag. -/
def recordRun (cfg : PCConfig) (s : PCState) (ts : List Nat) : PCState × Bool :=
  recordRunGo cfg (s, false) ts

/-- Front pruning removes nothing when no entry is more than 5 minutes
older than `now`. -/
theorem pruneFront_eq_self (now : Nat) :
    ∀ l : List Nat, (∀ x ∈ l, ¬ (x + 300 < now)) → pruneFront 300 now l = l := by
  intro l
  induction l with
  | nil => intro _; rfl
  | cons t ts _ =>
    intro h
    have ht := h t (List.mem_cons_self t ts)
    simp [pruneFront, ht]

/-- Behaviour of a run of `_record_command` calls over command timestamps
that all lie within one trailing 5-minute window of each other: the
timestamp deque just accumulates the commands, `breaker_open` is never
modified (the line that would set it is behind the `NameError`), and the
`NameError` is raised exactly when the count exceeds the threshold. -/
theorem recordRunGo_spec (cfg : PCConfig) :
    ∀ (ts : List Nat) (s : PCState) (flag : Bool),
      (∀ x ∈ s.commandTimes, ∀ y ∈ ts, ¬ (x + 300 < y)) →
      (∀ x ∈ ts, ∀ y ∈ ts, ¬ (x + 300 < y)) →
      (recordRunGo cfg (s, flag) ts).1.commandTimes = s.commandTimes ++ ts ∧
      (recordRunGo cfg (s, flag) ts).1.breakerOpen = s.breakerOpen ∧
      ((recordRunGo cfg (s, flag) ts).2 = true ↔
        (flag = true ∨ (ts ≠ [] ∧
          s.commandTimes.length + ts.length > cfg.maxCommandsPer5Min))) := by
  intro ts
  induction ts with
  | nil =>
    intro s flag _ _
    simp [recordRunGo]
  | cons t ts ih =>
    intro s flag h1 h2
    have hprune : pruneFront 300 t (s.commandTimes ++ [t])
        = s.commandTimes ++ [t] := by
      apply pruneFront_eq_self
      intro x hx
      rcases List.mem_append.mp hx with hxs | hxt
      · exact h1 x hxs t (List.mem_cons_self t ts)
      · have : x = t := List.mem_singleton.mp hxt
        omega
    have hrc : recordCommand cfg t s
        = ({ s with commandTimes := s.commandTimes ++ [t] },
           decide (s.commandTimes.length + 1 > cfg.maxCommandsPer5Min)) := by
      by_cases hgt : (s.commandTimes ++ [t]).length > cfg.maxCommandsPer5Min
      · have hlen : s.commandTimes.length + 1 > cfg.maxCommandsPer5Min := by
          simpa using hgt
        simp [recordCommand, hprune, hgt, hlen]
      · have hlen : ¬ (s.commandTimes.length + 1 > cfg.maxCommandsPer5Min) := by
          simpa using hgt
        simp [recordCommand, hprune, hgt, hlen]
    have hstep : recordRunGo cfg (s, flag) (t :: ts)
        = recordRunGo cfg
            ({ s with commandTimes := s.commandTimes ++ [t] },
             flag || decide (s.commandTimes.length + 1 > cfg.maxCommandsPer5Min))
            ts := by
      simp [recordRunGo, hrc]
    have hind := ih { s with commandTimes := s.commandTimes ++ [t] }
      (flag || decide (s.commandTimes.length + 1 > cfg.maxCommandsPer5Min))
      (by
        intro x hx y hy
        rcases List.mem_append.mp hx with hxs | hxt
        · exact h1 x hxs y (List.mem_cons_of_mem t hy)
        · have : x = t := List.mem_singleton.mp hxt
          subst this
          exact h2 x (List.mem_cons_self x ts) y (List.mem_cons_of_mem x hy))
      (by
        intro x hx y hy
        exact h2 x (List.mem_cons_of_mem t hx) y (List.mem_cons_of_mem t hy))
    rw [hstep]
    refine ⟨by rw [hind.1]; simp, by rw [hind.2.1], ?_⟩
    rw [hind.2.2]
    constructor
    · rintro (hflag | ⟨hne, hgt⟩)
      · rcases (Bool.or_eq_true _ _).mp hflag with hf | hd
        · exact Or.inl hf
        · have hgt2 := of_decide_eq_true hd
          refine Or.inr ⟨by simp, ?_⟩
          simp only [List.length_cons]
          omega
      · simp only [List.length_append, List.length_cons, List.length_nil] at hgt
        refine Or.inr ⟨by simp, ?_⟩
        simp only [List.length_cons]
        omega
    · rintro (hf | ⟨hne, hgt⟩)
      · exact Or.inl (by rw [hf, Bool.true_or])
      · simp only [List.length_cons] at hgt
        by_cases hts : ts = []
        · subst hts
          simp only [List.length_nil] at hgt
          have hd : decide (s.commandTimes.length + 1 > cfg.maxCommandsPer5Min)
              = true := decide_eq_true (by omega)
          exact Or.inl (by rw [hd, Bool.or_true])
        · refine Or.inr ⟨hts, ?_⟩
          simp only [List.length_append, List.length_cons, List.length_nil]
          omega

/-- C1 (the code evaluated against the claimed behaviour):
`_record_command` accumulates the timestamps and never opens the breaker.
Recording any number of commands within a trailing 5-minute window leaves
`breaker_open` false; with exactly T = `max_commands_per_5min` commands no
exception occurs (as the claim says, the breaker stays closed), but on the
(T+1)-th command — where the claim says the breaker must open — the code
instead raises `NameError` at pair_controller.py line 1004
(`DEFAULT_BREAKER_COOLDOWN_MINUTES` is not imported or defined anywhere in
the module), aborting before `self._breaker_open = True` on line 1005, so
the breaker can never open and enforcement is never blocked by it. -/
theorem C1_breaker_never_opens (cfg : PCConfig) (s : PCState) (ts : List Nat)
    (hrec : s.commandTimes = []) (hbr : s.breakerOpen = false)
    (hwin : ∀ x ∈ ts, ∀ y ∈ ts, ¬ (x + 300 < y)) :
    (recordRun cfg s ts).1.breakerOpen = false ∧
    (recordRun cfg s ts).1.commandTimes = ts ∧
    ((recordRun cfg s ts).2 = true ↔
      (ts ≠ [] ∧ ts.length > cfg.maxCommandsPer5Min)) := by
  have h := recordRunGo_spec cfg ts s false
    (by intro x hx; rw [hrec] at hx; simp at hx) hwin
  refine ⟨by rw [recordRun, h.2.1, hbr], by rw [recordRun, h.1, hrec]; simp, ?_⟩
  rw [recordRun, h.2.2, hrec]
  simp

/-- Witness for C1: threshold T = 1; two commands recorded at 0s and 100s
(inside one 5-minute window) raise the `NameError` while the breaker stays
closed; a single command raises nothing. -/
theorem C1_breaker_never_opens_witness :
    pcInit.commandTimes = [] ∧
    (∀ x ∈ [0, 100], ∀ y ∈ [0, 100], ¬ (x + 300 < y)) ∧
    (recordRun { cfgTest with maxCommandsPer5Min := 1 } pcInit
        [0, 100]).1.breakerOpen = false ∧
    ((recordRun { cfgTest with maxCommandsPer5Min := 1 } pcInit
        [0, 100]).2 = true ↔
      ([0, 100] ≠ [] ∧ [0, 100].length > 1)) :=
  ⟨rfl, by decide,
    (C1_breaker_never_opens { cfgTest with maxCommandsPer5Min := 1 } pcInit
      [0, 100] rfl rfl (by decide)).1,
    (C1_breaker_never_opens { cfgTest with maxCommandsPer5Min := 1 } pcInit
      [0, 100] rfl rfl (by decide)).2.2⟩

/-! ## Claim C2 — drift-escalation override -/

/-- The drift/override bookkeeping fields of the controller state. -/
def driftView (s : PCState) :
    Option Nat × Option Nat × Nat × Option Nat × Option Nat × List Nat ×
      Bool × Option Bool :=
  (s.manualOverrideUntil, s.manualOverrideUntilMonotonic,
   s.consecutiveDrifts, s.lastDriftAt, s.lastDriftCorrection,
   s.driftCorrectionsThisHour, s.atvActive, s.homeOk)

/-- The bookkeeping tail of the enforcement pipeline never modifies the
drift/override fields. -/
theorem finish_preserves_driftView (cfg : PCConfig) (nu nm : Nat)
    (s5 : PCState) (c : Calls) (cmds : List Cmd) :
    driftView (enforceFinish cfg nu nm s5 c cmds).state = driftView s5 := by
  simp only [enforceFinish]
  repeat' split
  all_goals simp [driftView, handleCommandFailure, recordCommand]
  all_goals repeat' split
  all_goals simp [driftView]

/-- The command phase of the enforcement pipeline never modifies the
drift/override fields. -/
theorem command_preserves_driftView (cfg : PCConfig) (dev : Device)
    (nu nm : Nat) (desired : Mode) (s2 : PCState) (c1 : Calls)
    (wakeCmds : List Cmd) :
    driftView (enforceCommand cfg dev nu nm desired s2 c1 wakeCmds).state
      = driftView s2 := by
  cases desired <;>
    (simp only [enforceCommand]
     rw [finish_preserves_driftView]
     repeat' split
     all_goals simp [driftView])

/-- The post-read part of the enforcement pipeline never modifies the
drift/override fields. -/
theorem withActual_preserves_driftView (cfg : PCConfig) (dev : Device)
    (tvState : Option String) (se nu nm : Nat) (desired : Mode)
    (actual : Option Bool) (reach : Bool) (s1 : PCState) (c1 : Calls)
    (wakeCmds : List Cmd) :
    driftView (enforceWithActual cfg dev tvState se nu nm desired actual reach
        s1 c1 wakeCmds).state = driftView s1 := by
  simp only [enforceWithActual]
  repeat' split
  all_goals
    first
      | (rw [command_preserves_driftView]
         repeat' split
         all_goals simp [driftView])
      | simp [driftView, handleCommandFailure]
  all_goals repeat' split
  all_goals simp [driftView]

/-- The enforcement pipeline never modifies the drift/override
bookkeeping: drift tracking and override activation belong to the resync
path alone. -/
theorem enforce_preserves_driftView (cfg : PCConfig) (dev : Device)
    (tvState : Option String) (se nu nm : Nat) (desired : Mode)
    (s : PCState) (c : Calls) :
    driftView (enforceDesiredMode cfg dev tvState se nu nm desired s c).state
      = driftView s := by
  simp only [enforceDesiredMode]
  repeat' split
  all_goals
    first
      | (rw [withActual_preserves_driftView]
         repeat' split
         all_goals simp [driftView])
      | simp [driftView]
  all_goals repeat' split
  all_goals simp [driftView]

/-- Field-level form of `enforce_preserves_driftView`, convenient for
rewriting. -/
theorem enforce_state_fields (cfg : PCConfig) (dev : Device)
    (tvState : Option String) (se nu nm : Nat) (desired : Mode)
    (s : PCState) (c : Calls) :
    ((enforceDesiredMode cfg dev tvState se nu nm desired s c).state.manualOverrideUntil
        = s.manualOverrideUntil) ∧
    ((enforceDesiredMode cfg dev tvState se nu nm desired s c).state.manualOverrideUntilMonotonic
        = s.manualOverrideUntilMonotonic) ∧
    ((enforceDesiredMode cfg dev tvState se nu nm desired s c).state.consecutiveDrifts
        = s.consecutiveDrifts) ∧
    ((enforceDesiredMode cfg dev tvState se nu nm desired s c).state.lastDriftAt
        = s.lastDriftAt) ∧
    ((enforceDesiredMode cfg dev tvState se nu nm desired s c).state.lastDriftCorrection
        = s.lastDriftCorrection) ∧
    ((enforceDesiredMode cfg dev tvState se nu nm desired s c).state.driftCorrectionsThisHour
        = s.driftCorrectionsThisHour) ∧
    ((enforceDesiredMode cfg dev tvState se nu nm desired s c).state.atvActive
        = s.atvActive) ∧
    ((enforceDesiredMode cfg dev tvState se nu nm desired s c).state.homeOk
        = s.homeOk) := by
  have h := enforce_preserves_driftView cfg dev tvState se nu nm desired s c
  simpa [driftView, Prod.mk.injEq] using h

/-- One resync cycle that detects drift (desired Art, actual read OFF)
from a state with no active override: the consecutive-drift counter
follows the strictly-less-than-5-minutes adjacency rule, the override
activates exactly when the counter reaches 3, and the drift bookkeeping
fields advance. -/
theorem resyncCycle_drift_step (cfg : PCConfig) (dev : Device)
    (tvState : Option String) (se t m : Nat) (hk : Option Bool)
    (s : PCState) (c : Calls) (cnt : Nat)
    (hc1 : cfg.presenceMode = PresenceMode.disabled)
    (hc2 : cfg.driftCorrectionCooldownMinutes = 0)
    (hlen : (pruneFront 3600 t s.driftCorrectionsThisHour).length
        < cfg.maxDriftCorrectionsPerHour)
    (hov : s.manualOverrideUntil = none)
    (hread : ∀ i, dev.getArt i = some false)
    (hw : is_time_in_window (t % 86400) cfg.activeStart cfg.activeEnd = true)
    (hatv : s.atvActive = false)
    (hcnt : cnt = (match s.lastDriftAt with
      | some p => if t - p < 300 then s.consecutiveDrifts + 1 else 1
      | none => 1)) :
    (resyncCycle cfg dev tvState se t m hk s c).state.manualOverrideUntil
        = (if cnt ≥ 3 then some (t + cfg.overrideMinutes * 60) else none) ∧
    (resyncCycle cfg dev tvState se t m hk s c).state.consecutiveDrifts = cnt ∧
    (resyncCycle cfg dev tvState se t m hk s c).state.lastDriftAt = some t ∧
    (resyncCycle cfg dev tvState se t m hk s c).state.lastDriftCorrection
        = some t ∧
    (resyncCycle cfg dev tvState se t m hk s c).state.driftCorrectionsThisHour
        = pruneFront 3600 t s.driftCorrectionsThisHour ++ [t] ∧
    (resyncCycle cfg dev tvState se t m hk s c).state.atvActive = false := by
  have hlen2 : ¬ ((pruneFront 3600 t s.driftCorrectionsThisHour).length
      ≥ cfg.maxDriftCorrectionsPerHour) := Nat.not_le.mpr hlen
  have hcool : ∀ (o : Option Nat),
      (match o with
        | some t2 => decide (t - t2 < cfg.driftCorrectionCooldownMinutes * 60)
        | none => false) = false := by
    intro o
    rcases o with _ | t2
    · rfl
    · simp [hc2]
  rcases hda : s.lastDriftAt with _ | p
  · rw [hda] at hcnt
    simp only at hcnt
    subst hcnt
    simp [resyncCycle, hcool, hlen2, hov, hread, hw, hc1, hatv, hda,
      compute_desired_mode, enforce_state_fields, devGetArtmode]
  · rw [hda] at hcnt
    simp only at hcnt
    subst hcnt
    by_cases hgap : t - p < 300
    · by_cases hcd : 2 ≤ s.consecutiveDrifts
      · simp [resyncCycle, hcool, hlen2, hov, hread, hw, hc1, hatv, hda, hgap,
          hcd, compute_desired_mode, enforce_state_fields, devGetArtmode,
          apply_ite EnforceResult.state, apply_ite PCState.manualOverrideUntil,
          apply_ite PCState.consecutiveDrifts, apply_ite PCState.lastDriftAt,
          apply_ite PCState.lastDriftCorrection, apply_ite PCState.atvActive,
          apply_ite PCState.driftCorrectionsThisHour]
      · simp [resyncCycle, hcool, hlen2, hov, hread, hw, hc1, hatv, hda, hgap,
          hcd, compute_desired_mode, enforce_state_fields, devGetArtmode,
          apply_ite EnforceResult.state, apply_ite PCState.manualOverrideUntil,
          apply_ite PCState.consecutiveDrifts, apply_ite PCState.lastDriftAt,
          apply_ite PCState.lastDriftCorrection, apply_ite PCState.atvActive,
          apply_ite PCState.driftCorrectionsThisHour]
    · simp [resyncCycle, hcool, hlen2, hov, hread, hw, hc1, hatv, hda, hgap,
        compute_desired_mode, enforce_state_fields, devGetArtmode,
        apply_ite EnforceResult.state, apply_ite PCState.manualOverrideUntil,
        apply_ite PCState.consecutiveDrifts, apply_ite PCState.lastDriftAt,
        apply_ite PCState.lastDriftCorrection, apply_ite PCState.atvActive,
        apply_ite PCState.driftCorrectionsThisHour]

/-- A sequence of timed resync cycles `(nowUtc, nowMono)`, each one
feeding the controller state and call counters into the next. -/
def resyncSeq (cfg : PCConfig) (dev : Device) (tvState : Option String)
    (se : Nat) (hk : Option Bool) (cycles : List (Nat × Nat)) (s : PCState)
    (c : Calls) : EnforceResult :=
  cycles.foldl
    (fun r tm => resyncCycle cfg dev tvState se tm.1 tm.2 hk r.state r.calls)
    { state := s, calls := c, cmds := [], raised := false }

/-- Front pruning never lengthens a list. -/
theorem pruneFront_length_le (w now : Nat) :
    ∀ l : List Nat, (pruneFront w now l).length ≤ l.length := by
  intro l
  induction l with
  | nil => simp [pruneFront]
  | cons t ts ih =>
    by_cases h : t + w < now
    · simp only [pruneFront, if_pos h]
      calc (pruneFront w now ts).length ≤ ts.length := ih
        _ ≤ (t :: ts).length := by simp
    · simp [pruneFront, h]

/-- The drift-correction cooldown gate of `_async_resync` is永 inactive
when the configured cooldown is zero. -/
theorem cooldown_gate_zero (cfg : PCConfig)
    (hc2 : cfg.driftCorrectionCooldownMinutes = 0) (t : Nat) (o : Option Nat) :
    (match o with
      | some t2 => decide (t - t2 < cfg.driftCorrectionCooldownMinutes * 60)
      | none => false) = false := by
  rcases o with _ | t2
  · rfl
  · simp [hc2]

/-- While an override deadline is ahead, a resync cycle only prunes the
drift-correction window and returns: no drift is registered, no command is
issued. -/
theorem resyncCycle_override_blocked (cfg : PCConfig) (dev : Device)
    (tvState : Option String) (se t m : Nat) (hk : Option Bool)
    (s : PCState) (c : Calls) (u : Nat)
    (hc2 : cfg.driftCorrectionCooldownMinutes = 0)
    (hso : s.manualOverrideUntil = some u) (hlt : t < u) :
    resyncCycle cfg dev tvState se t m hk s c
      = { state := { s with driftCorrectionsThisHour :=
                      pruneFront 3600 t s.driftCorrectionsThisHour },
          calls := c, cmds := [], raised := false } := by
  simp only [resyncCycle, cooldown_gate_zero cfg hc2]
  split
  · rfl
  · simp [hso, hlt]

/-- C2 counterexample: three drift detections at t = 50000s, 50290s and
50580s have consecutive gaps of 290s (< 5 min) but span 580s, so they do
NOT all fall inside a trailing 5-minute window — yet the code activates
the override at the third detection (override until 50580 + 60·60 =
54180), because `_async_resync` only compares each drift with the
previous one (`now - last_drift_at < 300`), not all three against one
window. -/
theorem C2_window_counterexample :
    (resyncSeq cfgTest devArtOff none 0 none
        [(50000, 100), (50290, 200), (50580, 300)] pcInit
        Calls.init).state.manualOverrideUntil = some 54180 ∧
    50580 - 50000 > 300 := by
  constructor <;> decide

/-- C2 as amended: the override activates exactly when a drift detection
finds the consecutive-drift counter at 2 with the previous drift strictly
less than 5 minutes earlier (so three drifts whose consecutive gaps are
each < 5 minutes) and no override timestamp is set; activation is
one-shot, setting the override to `now + override_minutes`.  Two drifts
followed by a gap of more than 5 minutes reset the counter to 1 and do
not activate.  While an override deadline is ahead, resync cycles return
without registering drift or issuing commands. -/
theorem C2_override_consecutive_drifts (cfg : PCConfig) (dev : Device)
    (tvState : Option String) (se t1 t2 t3 m1 m2 m3 : Nat)
    (hk : Option Bool) (s : PCState) (c : Calls)
    (hc1 : cfg.presenceMode = PresenceMode.disabled)
    (hc2 : cfg.driftCorrectionCooldownMinutes = 0)
    (hc3 : 3 ≤ cfg.maxDriftCorrectionsPerHour)
    (h0 : s.lastDriftAt = none) (hov : s.manualOverrideUntil = none)
    (hdc : s.driftCorrectionsThisHour = [])
    (hatv : s.atvActive = false)
    (hread : ∀ i, dev.getArt i = some false)
    (hw1 : is_time_in_window (t1 % 86400) cfg.activeStart cfg.activeEnd = true)
    (hw2 : is_time_in_window (t2 % 86400) cfg.activeStart cfg.activeEnd = true)
    (hw3 : is_time_in_window (t3 % 86400) cfg.activeStart cfg.activeEnd = true) :
    (t2 - t1 < 300 → t3 - t2 < 300 →
      (resyncSeq cfg dev tvState se hk [(t1, m1), (t2, m2)] s
          c).state.manualOverrideUntil = none ∧
      (resyncSeq cfg dev tvState se hk [(t1, m1), (t2, m2), (t3, m3)] s
          c).state.manualOverrideUntil = some (t3 + cfg.overrideMinutes * 60) ∧
      (resyncSeq cfg dev tvState se hk [(t1, m1), (t2, m2), (t3, m3)] s
          c).state.consecutiveDrifts = 3) ∧
    (t2 - t1 < 300 → t3 - t2 > 300 →
      (resyncSeq cfg dev tvState se hk [(t1, m1), (t2, m2), (t3, m3)] s
          c).state.manualOverrideUntil = none ∧
      (resyncSeq cfg dev tvState se hk [(t1, m1), (t2, m2), (t3, m3)] s
          c).state.consecutiveDrifts = 1) ∧
    (∀ (s2 : PCState) (c2 : Calls) (u t4 m4 : Nat),
      s2.manualOverrideUntil = some u → t4 < u →
      (resyncCycle cfg dev tvState se t4 m4 hk s2 c2).state.manualOverrideUntil
          = some u ∧
      (resyncCycle cfg dev tvState se t4 m4 hk s2 c2).state.consecutiveDrifts
          = s2.consecutiveDrifts ∧
      (resyncCycle cfg dev tvState se t4 m4 hk s2 c2).cmds = []) := by
  have hlen1 : (pruneFront 3600 t1 s.driftCorrectionsThisHour).length
      < cfg.maxDriftCorrectionsPerHour := by
    rw [hdc]
    simp [pruneFront]
    omega
  have h1 := resyncCycle_drift_step cfg dev tvState se t1 m1 hk s c 1 hc1 hc2
    hlen1 hov hread hw1 hatv (by rw [h0])
  obtain ⟨h1o, h1c, h1a, h1r, h1d, h1v⟩ := h1
  have h1o2 : (resyncCycle cfg dev tvState se t1 m1 hk s
      c).state.manualOverrideUntil = none := by
    rw [h1o]; simp
  have h1d2 : (resyncCycle cfg dev tvState se t1 m1 hk s
      c).state.driftCorrectionsThisHour = [t1] := by
    rw [h1d, hdc]
    simp [pruneFront]
  refine ⟨?_, ?_, ?_⟩
  · intro hg12 hg23
    have hlen2 : (pruneFront 3600 t2 (resyncCycle cfg dev tvState se t1 m1 hk s
        c).state.driftCorrectionsThisHour).length
        < cfg.maxDriftCorrectionsPerHour := by
      rw [h1d2]
      have hle := pruneFront_length_le 3600 t2 [t1]
      simp at hle
      omega
    have h2 := resyncCycle_drift_step cfg dev tvState se t2 m2 hk
      (resyncCycle cfg dev tvState se t1 m1 hk s c).state
      (resyncCycle cfg dev tvState se t1 m1 hk s c).calls 2 hc1 hc2
      hlen2 h1o2 hread hw2 h1v
      (by rw [h1a]; simp only; rw [h1c]; simp [hg12])
    obtain ⟨h2o, h2c, h2a, h2r, h2d, h2v⟩ := h2
    have h2o2 : (resyncCycle cfg dev tvState se t2 m2 hk
        (resyncCycle cfg dev tvState se t1 m1 hk s c).state
        (resyncCycle cfg dev tvState se t1 m1 hk s
          c).calls).state.manualOverrideUntil = none := by
      rw [h2o]; simp
    have hlen3 : (pruneFront 3600 t3 (resyncCycle cfg dev tvState se t2 m2 hk
        (resyncCycle cfg dev tvState se t1 m1 hk s c).state
        (resyncCycle cfg dev tvState se t1 m1 hk s
          c).calls).state.driftCorrectionsThisHour).length
        < cfg.maxDriftCorrectionsPerHour := by
      rw [h2d, h1d2]
      have ha := pruneFront_length_le 3600 t3 (pruneFront 3600 t2 [t1] ++ [t2])
      have hb := pruneFront_length_le 3600 t2 [t1]
      rw [List.length_append] at ha
      simp only [List.length_singleton] at ha
      simp at hb
      omega
    have h3 := resyncCycle_drift_step cfg dev tvState se t3 m3 hk
      (resyncCycle cfg dev tvState se t2 m2 hk
        (resyncCycle cfg dev tvState se t1 m1 hk s c).state
        (resyncCycle cfg dev tvState se t1 m1 hk s c).calls).state
      (resyncCycle cfg dev tvState se t2 m2 hk
        (resyncCycle cfg dev tvState se t1 m1 hk s c).state
        (resyncCycle cfg dev tvState se t1 m1 hk s c).calls).calls 3 hc1 hc2
      hlen3 h2o2 hread hw3 h2v
      (by rw [h2a]; simp only; rw [h2c]; simp [hg23])
    obtain ⟨h3o, h3c, _, _, _, _⟩ := h3
    refine ⟨?_, ?_, ?_⟩
    · simp only [resyncSeq, List.foldl_cons, List.foldl_nil]
      exact h2o2
    · simp only [resyncSeq, List.foldl_cons, List.foldl_nil]
      rw [h3o]
      simp
    · simp only [resyncSeq, List.foldl_cons, List.foldl_nil]
      exact h3c
  · intro hg12 hg23
    have hlen2 : (pruneFront 3600 t2 (resyncCycle cfg dev tvState se t1 m1 hk s
        c).state.driftCorrectionsThisHour).length
        < cfg.maxDriftCorrectionsPerHour := by
      rw [h1d2]
      have hle := pruneFront_length_le 3600 t2 [t1]
      simp at hle
      omega
    have h2 := resyncCycle_drift_step cfg dev tvState se t2 m2 hk
      (resyncCycle cfg dev tvState se t1 m1 hk s c).state
      (resyncCycle cfg dev tvState se t1 m1 hk s c).calls 2 hc1 hc2
      hlen2 h1o2 hread hw2 h1v
      (by rw [h1a]; simp only; rw [h1c]; simp [hg12])
    obtain ⟨h2o, h2c, h2a, h2r, h2d, h2v⟩ := h2
    have h2o2 : (resyncCycle cfg dev tvState se t2 m2 hk
        (resyncCycle cfg dev tvState se t1 m1 hk s c).state
        (resyncCycle cfg dev tvState se t1 m1 hk s
          c).calls).state.manualOverrideUntil = none := by
      rw [h2o]; simp
    have hlen3 : (pruneFront 3600 t3 (resyncCycle cfg dev tvState se t2 m2 hk
        (resyncCycle cfg dev tvState se t1 m1 hk s c).state
        (resyncCycle cfg dev tvState se t1 m1 hk s
          c).calls).state.driftCorrectionsThisHour).length
        < cfg.maxDriftCorrectionsPerHour := by
      rw [h2d, h1d2]
      have ha := pruneFront_length_le 3600 t3 (pruneFront 3600 t2 [t1] ++ [t2])
      have hb := pruneFront_length_le 3600 t2 [t1]
      rw [List.length_append] at ha
      simp only [List.length_singleton] at ha
      simp at hb
      omega
    have hnot : ¬ (t3 - t2 < 300) := by omega
    have h3 := resyncCycle_drift_step cfg dev tvState se t3 m3 hk
      (resyncCycle cfg dev tvState se t2 m2 hk
        (resyncCycle cfg dev tvState se t1 m1 hk s c).state
        (resyncCycle cfg dev tvState se t1 m1 hk s c).calls).state
      (resyncCycle cfg dev tvState se t2 m2 hk
        (resyncCycle cfg dev tvState se t1 m1 hk s c).state
        (resyncCycle cfg dev tvState se t1 m1 hk s c).calls).calls 1 hc1 hc2
      hlen3 h2o2 hread hw3 h2v
      (by rw [h2a]; simp only; rw [h2c]; simp [hnot])
    obtain ⟨h3o, h3c, _, _, _, _⟩ := h3
    refine ⟨?_, ?_⟩
    · simp only [resyncSeq, List.foldl_cons, List.foldl_nil]
      rw [h3o]
      simp
    · simp only [resyncSeq, List.foldl_cons, List.foldl_nil]
      exact h3c
  · intro s2 c2 u t4 m4 hso hlt
    rw [resyncCycle_override_blocked cfg dev tvState se t4 m4 hk s2 c2 u hc2
      hso hlt]
    exact ⟨hso, rfl, rfl⟩

/-- Witness for the amended C2 theorem: three drifts 100 seconds apart
activate the override at the third detection. -/
theorem C2_override_consecutive_drifts_witness :
    pcInit.lastDriftAt = none ∧
    (50100 - 50000 < 300 ∧ 50200 - 50100 < 300) ∧
    (resyncSeq cfgTest devArtOff none 0 none
        [(50000, 1), (50100, 2), (50200, 3)] pcInit
        Calls.init).state.manualOverrideUntil = some (50200 + 60 * 60) :=
  ⟨rfl, ⟨by decide, by decide⟩,
    ((C2_override_consecutive_drifts cfgTest devArtOff none 0 50000 50100 50200
        1 2 3 none pcInit Calls.init rfl rfl (by decide) rfl rfl rfl rfl
        (fun i => rfl) (by decide) (by decide) (by decide)).1
      (by decide) (by decide)).2.1⟩

/-! ## Claim C10 — cooldown after successful non-manual enforcement -/

/-- A device oracle whose first art-mode read reports OFF and whose later
reads report ON (a display that obeys the first Art-on command). -/
def devFlip : Device :=
  { setArt := fun _ _ => true, powerToggle := fun _ => true,
    getArt := fun i => if i = 0 then some false else some true,
    setSource := fun _ => true,
    remoteCall := fun _ => true, wolSend := fun _ => true,
    reachProbe := fun _ => true, verifyTimeUp := fun _ => false }

/-- C10: a successful enforcement whose trigger is not manual sets the
cooldown deadline (monotonic, with a wall-clock copy); a successful
manual-triggered enforcement leaves the cooldown fields untouched; while
the monotonic cooldown deadline is ahead every non-forced enforcement
request returns without acting (state, calls and command list all
unchanged); and once the monotonic clock reaches the deadline the gate
clears the cooldown and lets enforcement proceed. -/
theorem C10_cooldown_after_success (cfg : PCConfig) (dev : Device)
    (tvState : Option String) (se nu nm : Nat) (s : PCState) (c : Calls)
    (hen : cfg.enabled = true) (hdr : cfg.dryRun = false)
    (hbr : s.breakerOpen = false)
    (hbo : s.connectionBackoffUntilMonotonic = none)
    (hget0 : dev.getArt c.getCount = some false)
    (hset : dev.setArt c.setCount true = true)
    (htu : dev.verifyTimeUp 0 = false)
    (hget1 : dev.getArt (c.getCount + 1) = some true)
    (hrec : s.commandTimes = []) (hmax : 1 ≤ cfg.maxCommandsPer5Min) :
    (s.lastTrigger ≠ Trigger.manual →
      (enforceDesiredMode cfg dev tvState se nu nm Mode.art s
          c).state.lastActionResult = true ∧
      (enforceDesiredMode cfg dev tvState se nu nm Mode.art s
          c).state.cooldownUntilMonotonic = some (nm + cfg.cooldownSeconds) ∧
      (enforceDesiredMode cfg dev tvState se nu nm Mode.art s
          c).state.cooldownUntil = some (nu + cfg.cooldownSeconds)) ∧
    (s.lastTrigger = Trigger.manual →
      (enforceDesiredMode cfg dev tvState se nu nm Mode.art s
          c).state.lastActionResult = true ∧
      (enforceDesiredMode cfg dev tvState se nu nm Mode.art s
          c).state.cooldownUntilMonotonic = s.cooldownUntilMonotonic ∧
      (enforceDesiredMode cfg dev tvState se nu nm Mode.art s
          c).state.cooldownUntil = s.cooldownUntil) ∧
    (∀ (s2 : PCState) (c2 : Calls) (dl mono2 nu2 : Nat)
        (trigger : Option Trigger) (sga : Bool),
      s2.cooldownUntilMonotonic = some dl → mono2 < dl →
      computeAndEnforceLocked cfg dev tvState se sga nu2 mono2 trigger false
          s2 c2
        = { state := s2, calls := c2, cmds := [], raised := false }) ∧
    (∀ (s2 : PCState) (mono2 dl : Nat),
      s2.cooldownUntilMonotonic = some dl → dl ≤ mono2 →
      shouldEnforce false mono2 s2
        = (true, { s2 with cooldownUntilMonotonic := none,
                           cooldownUntil := none })) := by
  have hnp : ¬ (nu + 300 < nu) := by omega
  have hm2 : ¬ (1 > cfg.maxCommandsPer5Min) := by omega
  refine ⟨?_, ?_, ?_, ?_⟩
  · intro htr
    refine ⟨?_, ?_, ?_⟩ <;>
      simp [enforceDesiredMode, enforceWithActual, enforceCommand,
        enforceFinish, forceArtOn, verifyArtmode, verifyLoop, devProbe,
        devGetArtmode, devSetArtmode, recordCommand, pruneFront,
        handleCommandFailure, hen, hdr, hbr, hbo, hget0, hset, htu, hget1,
        hrec, hnp, hm2, htr]
  · intro htr
    refine ⟨?_, ?_, ?_⟩ <;>
      simp [enforceDesiredMode, enforceWithActual, enforceCommand,
        enforceFinish, forceArtOn, verifyArtmode, verifyLoop, devProbe,
        devGetArtmode, devSetArtmode, recordCommand, pruneFront,
        handleCommandFailure, hen, hdr, hbr, hbo, hget0, hset, htu, hget1,
        hrec, hnp, hm2, htr]
  · intro s2 c2 dl mono2 nu2 trigger sga hdl hlt
    rcases sga with _ | _
    · simp [computeAndEnforceLocked, shouldEnforce, hdl, hlt]
    · simp [computeAndEnforceLocked, shouldEnforce]
  · intro s2 mono2 dl hdl hge
    have hnl : ¬ (mono2 < dl) := Nat.not_lt.mpr hge
    simp [shouldEnforce, hdl, hnl]

/-- Witness for C10: a concrete successful Art-on enforcement under a
non-manual trigger sets the cooldown to `nowMono + cooldown_seconds`. -/
theorem C10_cooldown_after_success_witness :
    pcInit.lastTrigger ≠ Trigger.manual ∧
    (enforceDesiredMode cfgTest devFlip none 0 1000 100 Mode.art pcInit
        Calls.init).state.lastActionResult = true ∧
    (enforceDesiredMode cfgTest devFlip none 0 1000 100 Mode.art pcInit
        Calls.init).state.cooldownUntilMonotonic = some (100 + 60) ∧
    (enforceDesiredMode cfgTest devFlip none 0 1000 100 Mode.art pcInit
        Calls.init).state.cooldownUntil = some (1000 + 60) :=
  ⟨by decide,
    (C10_cooldown_after_success cfgTest devFlip none 0 1000 100 pcInit
      Calls.init rfl rfl rfl rfl rfl rfl rfl rfl rfl (by decide)).1
      (by decide)⟩

end FrameArtSync
